import Mathlib

/-!
# jiralert: the reconciliation engine of `notify.go`

A shallow embedding of `Receiver.Notify`, `Receiver.search`, `Receiver.reopen`,
`Receiver.create`, `handleJiraError`, `deepCopyWithTemplate` and `toIssueLabel`.

Conventions of the embedding:

* Go strings are Lean `String`s; `fmt.Sprintf` with `%s` verbs is concatenation and the
  `%q` verb is `quote` below.
* A Go `error` is an `Option String` (`none` is `nil`).
* Calls to the JIRA client are answered by a `Client` value (one function per endpoint) and
  every call made is appended to the run's list of `Call`s, in program order.
* `time.Time` is an integer instant in nanoseconds and `time.Duration` an integer number of
  nanoseconds; `t.Add(d).After(u)` is `u < t + d`.
* Log statements have no effect on the results and are left out.
* A run that hits a Go runtime fault (`bytes.Buffer.Truncate` out of range) is `none`.
-/

namespace Jiralert

/-! ## Strings, quoting, hashing -/

/-- Lower-case hexadecimal digit of a number below sixteen. -/
def hexDigit (n : Nat) : Char :=
  "0123456789abcdef".data.getD n '0'

/-- Two lower-case hexadecimal digits of a byte, as `hex.EncodeToString` writes them. -/
def hexByte (b : Nat) : List Char :=
  [hexDigit (b / 16 % 16), hexDigit (b % 16)]

/-- The function `hex.EncodeToString` of the Go standard library. -/
def hexEncodeToString (bs : List Nat) : String :=
  ⟨bs.flatMap hexByte⟩

/-- The ranges of the characters from U+0080 on that `strconv.IsPrint` takes as printable: the
letters, marks, numbers, punctuation and symbols (general categories L, M, N, P and S) of
Unicode 14.0.0, in increasing order. Go's table is the one of the Unicode version of its release;
no property below depends on the content of this table. -/
def printRanges : List (Nat × Nat) :=
  [(161, 172), (174, 887), (890, 895), (900, 906), (908, 908), (910, 929), (931, 1327),
    (1329, 1366), (1369, 1418), (1421, 1423), (1425, 1479), (1488, 1514), (1519, 1524),
    (1542, 1563), (1565, 1756), (1758, 1805), (1808, 1866), (1869, 1969), (1984, 2042),
    (2045, 2093), (2096, 2110), (2112, 2139), (2142, 2142), (2144, 2154), (2160, 2190),
    (2200, 2273), (2275, 2435), (2437, 2444), (2447, 2448), (2451, 2472), (2474, 2480),
    (2482, 2482), (2486, 2489), (2492, 2500), (2503, 2504), (2507, 2510), (2519, 2519),
    (2524, 2525), (2527, 2531), (2534, 2558), (2561, 2563), (2565, 2570), (2575, 2576),
    (2579, 2600), (2602, 2608), (2610, 2611), (2613, 2614), (2616, 2617), (2620, 2620),
    (2622, 2626), (2631, 2632), (2635, 2637), (2641, 2641), (2649, 2652), (2654, 2654),
    (2662, 2678), (2689, 2691), (2693, 2701), (2703, 2705), (2707, 2728), (2730, 2736),
    (2738, 2739), (2741, 2745), (2748, 2757), (2759, 2761), (2763, 2765), (2768, 2768),
    (2784, 2787), (2790, 2801), (2809, 2815), (2817, 2819), (2821, 2828), (2831, 2832),
    (2835, 2856), (2858, 2864), (2866, 2867), (2869, 2873), (2876, 2884), (2887, 2888),
    (2891, 2893), (2901, 2903), (2908, 2909), (2911, 2915), (2918, 2935), (2946, 2947),
    (2949, 2954), (2958, 2960), (2962, 2965), (2969, 2970), (2972, 2972), (2974, 2975),
    (2979, 2980), (2984, 2986), (2990, 3001), (3006, 3010), (3014, 3016), (3018, 3021),
    (3024, 3024), (3031, 3031), (3046, 3066), (3072, 3084), (3086, 3088), (3090, 3112),
    (3114, 3129), (3132, 3140), (3142, 3144), (3146, 3149), (3157, 3158), (3160, 3162),
    (3165, 3165), (3168, 3171), (3174, 3183), (3191, 3212), (3214, 3216), (3218, 3240),
    (3242, 3251), (3253, 3257), (3260, 3268), (3270, 3272), (3274, 3277), (3285, 3286),
    (3293, 3294), (3296, 3299), (3302, 3311), (3313, 3314), (3328, 3340), (3342, 3344),
    (3346, 3396), (3398, 3400), (3402, 3407), (3412, 3427), (3430, 3455), (3457, 3459),
    (3461, 3478), (3482, 3505), (3507, 3515), (3517, 3517), (3520, 3526), (3530, 3530),
    (3535, 3540), (3542, 3542), (3544, 3551), (3558, 3567), (3570, 3572), (3585, 3642),
    (3647, 3675), (3713, 3714), (3716, 3716), (3718, 3722), (3724, 3747), (3749, 3749),
    (3751, 3773), (3776, 3780), (3782, 3782), (3784, 3789), (3792, 3801), (3804, 3807),
    (3840, 3911), (3913, 3948), (3953, 3991), (3993, 4028), (4030, 4044), (4046, 4058),
    (4096, 4293), (4295, 4295), (4301, 4301), (4304, 4680), (4682, 4685), (4688, 4694),
    (4696, 4696), (4698, 4701), (4704, 4744), (4746, 4749), (4752, 4784), (4786, 4789),
    (4792, 4798), (4800, 4800), (4802, 4805), (4808, 4822), (4824, 4880), (4882, 4885),
    (4888, 4954), (4957, 4988), (4992, 5017), (5024, 5109), (5112, 5117), (5120, 5759),
    (5761, 5788), (5792, 5880), (5888, 5909), (5919, 5942), (5952, 5971), (5984, 5996),
    (5998, 6000), (6002, 6003), (6016, 6109), (6112, 6121), (6128, 6137), (6144, 6157),
    (6159, 6169), (6176, 6264), (6272, 6314), (6320, 6389), (6400, 6430), (6432, 6443),
    (6448, 6459), (6464, 6464), (6468, 6509), (6512, 6516), (6528, 6571), (6576, 6601),
    (6608, 6618), (6622, 6683), (6686, 6750), (6752, 6780), (6783, 6793), (6800, 6809),
    (6816, 6829), (6832, 6862), (6912, 6988), (6992, 7038), (7040, 7155), (7164, 7223),
    (7227, 7241), (7245, 7304), (7312, 7354), (7357, 7367), (7376, 7418), (7424, 7957),
    (7960, 7965), (7968, 8005), (8008, 8013), (8016, 8023), (8025, 8025), (8027, 8027),
    (8029, 8029), (8031, 8061), (8064, 8116), (8118, 8132), (8134, 8147), (8150, 8155),
    (8157, 8175), (8178, 8180), (8182, 8190), (8208, 8231), (8240, 8286), (8304, 8305),
    (8308, 8334), (8336, 8348), (8352, 8384), (8400, 8432), (8448, 8587), (8592, 9254),
    (9280, 9290), (9312, 11123), (11126, 11157), (11159, 11507), (11513, 11557), (11559, 11559),
    (11565, 11565), (11568, 11623), (11631, 11632), (11647, 11670), (11680, 11686),
    (11688, 11694), (11696, 11702), (11704, 11710), (11712, 11718), (11720, 11726),
    (11728, 11734), (11736, 11742), (11744, 11869), (11904, 11929), (11931, 12019),
    (12032, 12245), (12272, 12283), (12289, 12351), (12353, 12438), (12441, 12543),
    (12549, 12591), (12593, 12686), (12688, 12771), (12784, 12830), (12832, 42124),
    (42128, 42182), (42192, 42539), (42560, 42743), (42752, 42954), (42960, 42961),
    (42963, 42963), (42965, 42969), (42994, 43052), (43056, 43065), (43072, 43127),
    (43136, 43205), (43214, 43225), (43232, 43347), (43359, 43388), (43392, 43469),
    (43471, 43481), (43486, 43518), (43520, 43574), (43584, 43597), (43600, 43609),
    (43612, 43714), (43739, 43766), (43777, 43782), (43785, 43790), (43793, 43798),
    (43808, 43814), (43816, 43822), (43824, 43883), (43888, 44013), (44016, 44025),
    (44032, 55203), (55216, 55238), (55243, 55291), (63744, 64109), (64112, 64217),
    (64256, 64262), (64275, 64279), (64285, 64310), (64312, 64316), (64318, 64318),
    (64320, 64321), (64323, 64324), (64326, 64450), (64467, 64911), (64914, 64967),
    (64975, 64975), (65008, 65049), (65056, 65106), (65108, 65126), (65128, 65131),
    (65136, 65140), (65142, 65276), (65281, 65470), (65474, 65479), (65482, 65487),
    (65490, 65495), (65498, 65500), (65504, 65510), (65512, 65518), (65532, 65533),
    (65536, 65547), (65549, 65574), (65576, 65594), (65596, 65597), (65599, 65613),
    (65616, 65629), (65664, 65786), (65792, 65794), (65799, 65843), (65847, 65934),
    (65936, 65948), (65952, 65952), (66000, 66045), (66176, 66204), (66208, 66256),
    (66272, 66299), (66304, 66339), (66349, 66378), (66384, 66426), (66432, 66461),
    (66463, 66499), (66504, 66517), (66560, 66717), (66720, 66729), (66736, 66771),
    (66776, 66811), (66816, 66855), (66864, 66915), (66927, 66938), (66940, 66954),
    (66956, 66962), (66964, 66965), (66967, 66977), (66979, 66993), (66995, 67001),
    (67003, 67004), (67072, 67382), (67392, 67413), (67424, 67431), (67456, 67461),
    (67463, 67504), (67506, 67514), (67584, 67589), (67592, 67592), (67594, 67637),
    (67639, 67640), (67644, 67644), (67647, 67669), (67671, 67742), (67751, 67759),
    (67808, 67826), (67828, 67829), (67835, 67867), (67871, 67897), (67903, 67903),
    (67968, 68023), (68028, 68047), (68050, 68099), (68101, 68102), (68108, 68115),
    (68117, 68119), (68121, 68149), (68152, 68154), (68159, 68168), (68176, 68184),
    (68192, 68255), (68288, 68326), (68331, 68342), (68352, 68405), (68409, 68437),
    (68440, 68466), (68472, 68497), (68505, 68508), (68521, 68527), (68608, 68680),
    (68736, 68786), (68800, 68850), (68858, 68903), (68912, 68921), (69216, 69246),
    (69248, 69289), (69291, 69293), (69296, 69297), (69376, 69415), (69424, 69465),
    (69488, 69513), (69552, 69579), (69600, 69622), (69632, 69709), (69714, 69749),
    (69759, 69820), (69822, 69826), (69840, 69864), (69872, 69881), (69888, 69940),
    (69942, 69959), (69968, 70006), (70016, 70111), (70113, 70132), (70144, 70161),
    (70163, 70206), (70272, 70278), (70280, 70280), (70282, 70285), (70287, 70301),
    (70303, 70313), (70320, 70378), (70384, 70393), (70400, 70403), (70405, 70412),
    (70415, 70416), (70419, 70440), (70442, 70448), (70450, 70451), (70453, 70457),
    (70459, 70468), (70471, 70472), (70475, 70477), (70480, 70480), (70487, 70487),
    (70493, 70499), (70502, 70508), (70512, 70516), (70656, 70747), (70749, 70753),
    (70784, 70855), (70864, 70873), (71040, 71093), (71096, 71133), (71168, 71236),
    (71248, 71257), (71264, 71276), (71296, 71353), (71360, 71369), (71424, 71450),
    (71453, 71467), (71472, 71494), (71680, 71739), (71840, 71922), (71935, 71942),
    (71945, 71945), (71948, 71955), (71957, 71958), (71960, 71989), (71991, 71992),
    (71995, 72006), (72016, 72025), (72096, 72103), (72106, 72151), (72154, 72164),
    (72192, 72263), (72272, 72354), (72368, 72440), (72704, 72712), (72714, 72758),
    (72760, 72773), (72784, 72812), (72816, 72847), (72850, 72871), (72873, 72886),
    (72960, 72966), (72968, 72969), (72971, 73014), (73018, 73018), (73020, 73021),
    (73023, 73031), (73040, 73049), (73056, 73061), (73063, 73064), (73066, 73102),
    (73104, 73105), (73107, 73112), (73120, 73129), (73440, 73464), (73648, 73648),
    (73664, 73713), (73727, 74649), (74752, 74862), (74864, 74868), (74880, 75075),
    (77712, 77810), (77824, 78894), (82944, 83526), (92160, 92728), (92736, 92766),
    (92768, 92777), (92782, 92862), (92864, 92873), (92880, 92909), (92912, 92917),
    (92928, 92997), (93008, 93017), (93019, 93025), (93027, 93047), (93053, 93071),
    (93760, 93850), (93952, 94026), (94031, 94087), (94095, 94111), (94176, 94180),
    (94192, 94193), (94208, 100343), (100352, 101589), (101632, 101640), (110576, 110579),
    (110581, 110587), (110589, 110590), (110592, 110882), (110928, 110930), (110948, 110951),
    (110960, 111355), (113664, 113770), (113776, 113788), (113792, 113800), (113808, 113817),
    (113820, 113823), (118528, 118573), (118576, 118598), (118608, 118723), (118784, 119029),
    (119040, 119078), (119081, 119154), (119163, 119274), (119296, 119365), (119520, 119539),
    (119552, 119638), (119648, 119672), (119808, 119892), (119894, 119964), (119966, 119967),
    (119970, 119970), (119973, 119974), (119977, 119980), (119982, 119993), (119995, 119995),
    (119997, 120003), (120005, 120069), (120071, 120074), (120077, 120084), (120086, 120092),
    (120094, 120121), (120123, 120126), (120128, 120132), (120134, 120134), (120138, 120144),
    (120146, 120485), (120488, 120779), (120782, 121483), (121499, 121503), (121505, 121519),
    (122624, 122654), (122880, 122886), (122888, 122904), (122907, 122913), (122915, 122916),
    (122918, 122922), (123136, 123180), (123184, 123197), (123200, 123209), (123214, 123215),
    (123536, 123566), (123584, 123641), (123647, 123647), (124896, 124902), (124904, 124907),
    (124909, 124910), (124912, 124926), (124928, 125124), (125127, 125142), (125184, 125259),
    (125264, 125273), (125278, 125279), (126065, 126132), (126209, 126269), (126464, 126467),
    (126469, 126495), (126497, 126498), (126500, 126500), (126503, 126503), (126505, 126514),
    (126516, 126519), (126521, 126521), (126523, 126523), (126530, 126530), (126535, 126535),
    (126537, 126537), (126539, 126539), (126541, 126543), (126545, 126546), (126548, 126548),
    (126551, 126551), (126553, 126553), (126555, 126555), (126557, 126557), (126559, 126559),
    (126561, 126562), (126564, 126564), (126567, 126570), (126572, 126578), (126580, 126583),
    (126585, 126588), (126590, 126590), (126592, 126601), (126603, 126619), (126625, 126627),
    (126629, 126633), (126635, 126651), (126704, 126705), (126976, 127019), (127024, 127123),
    (127136, 127150), (127153, 127167), (127169, 127183), (127185, 127221), (127232, 127405),
    (127462, 127490), (127504, 127547), (127552, 127560), (127568, 127569), (127584, 127589),
    (127744, 128727), (128733, 128748), (128752, 128764), (128768, 128883), (128896, 128984),
    (128992, 129003), (129008, 129008), (129024, 129035), (129040, 129095), (129104, 129113),
    (129120, 129159), (129168, 129197), (129200, 129201), (129280, 129619), (129632, 129645),
    (129648, 129652), (129656, 129660), (129664, 129670), (129680, 129708), (129712, 129722),
    (129728, 129733), (129744, 129753), (129760, 129767), (129776, 129782), (129792, 129938),
    (129940, 129994), (130032, 130041), (131072, 173791), (173824, 177976), (177984, 178205),
    (178208, 183969), (183984, 191456), (194560, 195101), (196608, 201546), (917760, 917999)]

/-- Membership of a number in one of a list of ranges in increasing order. -/
def inRanges : List (Nat × Nat) → Nat → Bool
  | [], _ => false
  | (lo, hi) :: rest, n =>
    if n < lo then false else if n ≤ hi then true else inRanges rest n

/-- The function `strconv.IsPrint`: in ASCII the characters from the space to the tilde, beyond
ASCII the characters of `printRanges`. -/
def isPrint (c : Char) : Bool :=
  if c.toNat < 128 then decide (32 ≤ c.toNat ∧ c.toNat < 127)
  else inRanges printRanges c.toNat

/-- One character as `strconv.Quote` writes it inside the double quotes: the quote and the
backslash are preceded by a backslash; any other printable character is written as it is; the
control characters with a Go escape get it; any other character below the space, and the
delete character, is written `\x` with two hexadecimal digits; any other character is written
`\u` with four hexadecimal digits below U+10000 and `\U` with eight from there on. -/
def quoteChar (c : Char) : List Char :=
  if c = Char.ofNat 34 then [Char.ofNat 92, Char.ofNat 34]
  else if c = Char.ofNat 92 then [Char.ofNat 92, Char.ofNat 92]
  else if isPrint c then [c]
  else if c = Char.ofNat 7 then [Char.ofNat 92, 'a']
  else if c = Char.ofNat 8 then [Char.ofNat 92, 'b']
  else if c = Char.ofNat 12 then [Char.ofNat 92, 'f']
  else if c = Char.ofNat 10 then [Char.ofNat 92, 'n']
  else if c = Char.ofNat 13 then [Char.ofNat 92, 'r']
  else if c = Char.ofNat 9 then [Char.ofNat 92, 't']
  else if c = Char.ofNat 11 then [Char.ofNat 92, 'v']
  else if c.toNat < 32 ∨ c.toNat = 127 then Char.ofNat 92 :: 'x' :: hexByte c.toNat
  else if c.toNat < 65536 then
    Char.ofNat 92 :: 'u' :: (hexByte (c.toNat / 256) ++ hexByte (c.toNat % 256))
  else
    Char.ofNat 92 :: 'U' :: (hexByte (c.toNat / 16777216) ++ hexByte (c.toNat / 65536 % 256)
      ++ hexByte (c.toNat / 256 % 256) ++ hexByte (c.toNat % 256))

/-- The `%q` verb of `fmt.Sprintf` on a string (`strconv.Quote`): the escaped characters between
two double quotes. (A string here is a sequence of Unicode characters; a Go string that is not
valid UTF-8 has no counterpart.) -/
def quote (s : String) : String :=
  ⟨Char.ofNat 34 :: (s.data.flatMap quoteChar ++ [Char.ofNat 34])⟩

/-- The bytes of a string (its UTF-8 encoding), as the conversion `[]byte(s)` gives them. -/
def stringBytes (s : String) : List Nat :=
  (s.data.flatMap String.utf8EncodeChar).map UInt8.toNat

/-! ### SHA-1 (`crypto/sha1`), on 32-bit words held in `Nat` -/

/-- Addition of 32-bit words. -/
def add32 (x y : Nat) : Nat := (x + y) % 2 ^ 32

/-- Rotation of a 32-bit word to the left. -/
def rotl32 (x n : Nat) : Nat :=
  ((x <<< n) % 2 ^ 32) ||| (x >>> (32 - n))

/-- Bitwise complement of a 32-bit word. -/
def not32 (x : Nat) : Nat := 2 ^ 32 - 1 - x % 2 ^ 32

/-- The four bytes of a 32-bit word, most significant first. -/
def wordBytes (w : Nat) : List Nat :=
  [w / 2 ^ 24 % 256, w / 2 ^ 16 % 256, w / 2 ^ 8 % 256, w % 256]

/-- The eight bytes of a 64-bit length, most significant first. -/
def lengthBytes (n : Nat) : List Nat :=
  wordBytes (n / 2 ^ 32 % 2 ^ 32) ++ wordBytes (n % 2 ^ 32)

/-- The message followed by the SHA-1 padding: a `0x80` byte, zero bytes up to 56 modulo 64, and
the bit length of the message on eight bytes. -/
def sha1Pad (msg : List Nat) : List Nat :=
  msg ++ [128] ++ List.replicate ((119 - msg.length % 64) % 64) 0
    ++ lengthBytes (msg.length * 8 % 2 ^ 64)

/-- The big-endian 32-bit words of a block of bytes. -/
def blockWords : List Nat → List Nat
  | a :: b :: c :: d :: rest => (((a * 256 + b) * 256 + c) * 256 + d) :: blockWords rest
  | _ => []

/-- The message schedule: the sixteen words of a block extended to eighty. -/
def sha1Schedule (w : List Nat) : List Nat :=
  (List.range 64).foldl
    (fun acc i =>
      acc ++ [rotl32 (acc.getD (i + 13) 0 ^^^ acc.getD (i + 8) 0 ^^^ acc.getD (i + 2) 0
        ^^^ acc.getD i 0) 1])
    w

/-- The five chaining words of SHA-1. -/
structure Sha1State where
  h0 : Nat
  h1 : Nat
  h2 : Nat
  h3 : Nat
  h4 : Nat

/-- One round of the compression function. -/
def sha1Round (w : List Nat) (s : Sha1State) (i : Nat) : Sha1State :=
  let f :=
    if i < 20 then (s.h1 &&& s.h2) ||| (not32 s.h1 &&& s.h3)
    else if i < 40 then s.h1 ^^^ s.h2 ^^^ s.h3
    else if i < 60 then (s.h1 &&& s.h2) ||| (s.h1 &&& s.h3) ||| (s.h2 &&& s.h3)
    else s.h1 ^^^ s.h2 ^^^ s.h3
  let k :=
    if i < 20 then 0x5A827999
    else if i < 40 then 0x6ED9EBA1
    else if i < 60 then 0x8F1BBCDC
    else 0xCA62C1D6
  let t := add32 (add32 (add32 (add32 (rotl32 s.h0 5) f) s.h4) k) (w.getD i 0)
  ⟨t, s.h0, rotl32 s.h1 30, s.h2, s.h3⟩

/-- The compression of one 64-byte block into the chaining state. -/
def sha1Block (s : Sha1State) (block : List Nat) : Sha1State :=
  let w := sha1Schedule (blockWords block)
  let r := (List.range 80).foldl (sha1Round w) s
  ⟨add32 s.h0 r.h0, add32 s.h1 r.h1, add32 s.h2 r.h2, add32 s.h3 r.h3, add32 s.h4 r.h4⟩

/-- The blocks of a padded message, folded through the compression function. -/
def sha1Blocks : Nat → Sha1State → List Nat → Sha1State
  | 0, s, _ => s
  | n + 1, s, bs => sha1Blocks n (sha1Block s (bs.take 64)) (bs.drop 64)

/-- The function `sha1.Sum`: the twenty bytes of the SHA-1 digest of a message. -/
def sha1Sum (msg : List Nat) : List Nat :=
  let p := sha1Pad msg
  let s := sha1Blocks (p.length / 64) ⟨0x67452301, 0xEFCDAB89, 0x98BADCFE, 0x10325476, 0xC3D2E1F0⟩ p
  wordBytes s.h0 ++ wordBytes s.h1 ++ wordBytes s.h2 ++ wordBytes s.h3 ++ wordBytes s.h4

/-! ## Alert data and the template engine -/

/-- The type `alertmanager.KV`, a Go map from label names to label values: its entries, whose
names are pairwise different, in the order in which a `range` over the map visits them. -/
abbrev KV := List (String × String)

/-- The part of `alertmanager.Data` that the engine reads itself; the alerts are only seen by the
templates. -/
structure Data where
  Receiver : String
  GroupLabels : KV

/-- Order on label names: Go compares strings byte by byte, which on UTF-8 is the
lexicographic order of the characters. -/
def nameLe (a b : String × String) : Prop := ¬ b.1.data < a.1.data

instance nameLeDecidable : DecidableRel nameLe :=
  fun a b => inferInstanceAs (Decidable (¬ b.1.data < a.1.data))

/-- Modelled from the spec: `KV.SortedPairs` of the `alertmanager` package, which is not among the
sources. The spec's label mode takes "the sorted group-label values (sorted by label key, emitting
only values)": the entries of the map sorted by label name. -/
def SortedPairs (kv : KV) : List (String × String) :=
  kv.insertionSort nameLe

/-- Modelled from the spec: the `Template` type of the package (`template.go` is not among the
sources). `render` is the rendering of a template text against the alert data: the rendered
string and the error of that rendering, if any. `err` is the engine's error state: "errors are
accumulated, not raised per call", and the state holds the "first error so far". -/
structure Template where
  render : String → Data → String × Option String
  err : Option String

/-- Modelled from the spec: `Template.Execute` returns the rendered string and records the error
of the rendering in the engine unless an earlier error is already there. -/
def Template.Execute (t : Template) (text : String) (data : Data) : String × Template :=
  let out := t.render text data
  (out.1, ⟨t.render, match t.err with
    | some e => some e
    | none => out.2⟩)

/-! ## Value trees and `deepCopyWithTemplate` -/

/-- A key of a decoded configuration mapping: a string, or a key of another kind. -/
inductive Key where
  | str (s : String)
  | int (i : Int)
  | bool (b : Bool)
  deriving DecidableEq, Repr

/-- A decoded configuration value: `nil`, a boolean, an integer, a string, a slice or a map (the
entries of a map have pairwise different keys and are listed in the order in which reflection
returns the keys). -/
inductive Value where
  | null
  | bool (b : Bool)
  | int (i : Int)
  | str (s : String)
  | seq (xs : List Value)
  | map (entries : List (Key × Value))
  deriving Repr

/-- The assignment `m[k] = v` on a Go map with string keys, held as a list of entries: the value
of an existing key is replaced, a new key is added. -/
def mapSet : List (Key × Value) → String → Value → List (Key × Value)
  | [], k, v => [(Key.str k, v)]
  | (k', v') :: rest, k, v =>
    if k' = Key.str k then (k', v) :: rest else (k', v') :: mapSet rest k v

mutual
/-- The function `deepCopyWithTemplate`: the copy of the value and the template engine after the
renderings of the walk. -/
def deepCopyWithTemplate : Value → Template → Data → Value × Template
  | Value.null, tmpl, _ => (Value.null, tmpl)
  | Value.str s, tmpl, data =>
    let r := tmpl.Execute s data
    (Value.str r.1, r.2)
  | Value.seq xs, tmpl, data =>
    let r := deepCopySeq xs tmpl data
    (Value.seq r.1, r.2)
  | Value.map entries, tmpl, data =>
    let r := deepCopyMap entries [] tmpl data
    (Value.map r.1, r.2)
  | Value.bool b, tmpl, _ => (Value.bool b, tmpl)
  | Value.int i, tmpl, _ => (Value.int i, tmpl)
/-- The loop of the slice case: `converted[i] = deepCopyWithTemplate(...)` for each index. -/
def deepCopySeq : List Value → Template → Data → List Value × Template
  | [], tmpl, _ => ([], tmpl)
  | x :: xs, tmpl, data =>
    let r := deepCopyWithTemplate x tmpl data
    let rs := deepCopySeq xs r.2 data
    (r.1 :: rs.1, rs.2)
/-- The loop of the map case over the keys, with the map `converted` built so far: an entry whose
key is not a string is skipped; for a string key the key is rendered, then the value is copied,
then the entry is assigned. -/
def deepCopyMap : List (Key × Value) → List (Key × Value) → Template → Data →
    List (Key × Value) × Template
  | [], converted, tmpl, _ => (converted, tmpl)
  | (Key.str k, v) :: rest, converted, tmpl, data =>
    let rk := tmpl.Execute k data
    let rv := deepCopyWithTemplate v rk.2 data
    deepCopyMap rest (mapSet converted rk.1 rv.1) rv.2 data
  | (_, _) :: rest, converted, tmpl, data => deepCopyMap rest converted tmpl data
end

/-- The function `toIssueLabel`: the values of the group labels, in the order of the sorted
pairs. -/
def toIssueLabel (groupLabels : KV) : List String :=
  (SortedPairs groupLabels).foldl (fun l p => l ++ [p.2]) []

/-! ## Configuration, issues and the JIRA client -/

/-- The fields of `ReceiverConfig` that `notify.go` reads. `Fields` is a Go map from field names
to values, held as its entries in iteration order; `ReopenDuration` is in nanoseconds. -/
structure ReceiverConfig where
  Project : String
  IssueType : String
  Summary : String
  Description : String
  Priority : String
  Components : List String
  Fields : List (String × Value)
  AlertHash : String
  AddLabels : Bool
  AddGroupLabels : Bool
  WontFixResolution : String
  ReopenState : String
  ReopenDuration : Int

/-- The fields of `jira.IssueFields` that `notify.go` reads or writes. `Status` is the key of the
status category, `Resolution` the name of the resolution when there is one, `Resolutiondate` the
instant of the resolution, `Unknowns` a map with string keys; `IssueType` is the name in the
field `Type`, `Project` the key of the project. -/
structure IssueFields where
  Project : String
  IssueType : String
  Description : String
  Summary : String
  Labels : List String
  Unknowns : List (Key × Value)
  Priority : Option String
  Components : List String
  Status : String
  Resolution : Option String
  Resolutiondate : Int

/-- The type `jira.Issue`. -/
structure Issue where
  Key : String
  ID : String
  Fields : IssueFields

/-- The type `jira.Transition`. -/
structure Transition where
  ID : String
  Name : String

/-- The type `jira.SearchOptions`. -/
structure SearchOptions where
  Fields : List String
  MaxResults : Nat

/-- The parts of a `jira.Response` that `handleJiraError` reads: the status code and status line,
the URL of the request that was sent (the HTTP client sets the request on every response it
returns) and the body. -/
structure Response where
  StatusCode : Int
  Status : String
  URL : String
  Body : String

/-- What a method of the JIRA client returns: a value when the returned error is `nil`, and
otherwise the response, if there is one, together with the error. -/
inductive Reply (α : Type) where
  | ok (v : α)
  | fail (resp : Option Response) (err : String)

/-- The JIRA client as the engine sees it: the answer of the tracker to each of the four
operations. -/
structure Client where
  Search : String → SearchOptions → Reply (List Issue)
  GetTransitions : String → Reply (List Transition)
  DoTransition : String → String → Reply Unit
  Create : Issue → Reply Issue

/-- A call made to the JIRA client. -/
inductive Call where
  | search (query : String) (options : SearchOptions)
  | getTransitions (issueKey : String)
  | doTransition (issueKey : String) (transitionID : String)
  | create (issue : Issue)

/-- The type `Receiver`. -/
structure Receiver where
  conf : ReceiverConfig
  tmpl : Template
  client : Client

/-- What a method returning `(bool, error)` returns, with the calls it made to the client. -/
structure Outcome where
  retry : Bool
  err : Option String
  calls : List Call

/-- What `search` returns, `(*jira.Issue, bool, error)`, with the calls it made to the client. -/
structure SearchOutcome where
  issue : Option Issue
  retry : Bool
  err : Option String
  calls : List Call

/-! ## The gateway operations -/

/-- The function `handleJiraError`. -/
def handleJiraError (api : String) (resp : Option Response) (err : String) :
    Bool × Option String :=
  match resp with
  | some resp =>
    if resp.StatusCode.tdiv 100 ≠ 2 then
      let retry := decide (resp.StatusCode = 500 ∨ resp.StatusCode = 503)
      (retry, some ("JIRA request " ++ resp.URL ++ " returned status " ++ resp.Status
        ++ ", body " ++ quote resp.Body))
    else (false, some ("JIRA request " ++ api ++ " failed: " ++ err))
  | none => (false, some ("JIRA request " ++ api ++ " failed: " ++ err))

/-- The method `bytes.Buffer.Truncate` on a buffer that holds `buf`: it faults unless
`0 ≤ n ≤ buf.Len()` and otherwise keeps the first `n` units. (The buffer of `search` ends in a
one-byte space whenever it is not empty, so lengths in characters serve.) -/
def bufferTruncate (buf : String) (n : Int) : Option String :=
  if n < 0 ∨ (buf.length : Int) < n then none else some ⟨buf.data.take n.toNat⟩

/-- The buffer of `search` after the loop `buf.WriteString(fmt.Sprintf("and labels=%q ", l))`. -/
def searchLabelsBuffer (il : List String) : String :=
  il.foldl (fun buf l => buf ++ ("and labels=" ++ quote l ++ " ")) ""

/-- The options `search` passes to the client. -/
def searchOptions : SearchOptions :=
  ⟨["summary", "status", "resolution", "resolutiondate"], 2⟩

/-- The query that `search` builds (the first part of the method), or `none` when the truncation
of the buffer faults. -/
def searchQuery (project : String) (il : List String) (addIssueLabel : Bool)
    (alertHash : String) : Option String :=
  if alertHash ≠ "" then
    some ("project=" ++ project ++ " and description~\"alert_hash=" ++ alertHash
      ++ "\" order by key DESC")
  else if addIssueLabel then
    let buf := searchLabelsBuffer il
    match bufferTruncate buf ((buf.length : Int) - 1) with
    | none => none
    | some search_labels => some ("project=" ++ project ++ " " ++ search_labels
        ++ " order by key DESC")
  else some ("project=" ++ project ++ " order by key DESC")

/-- The method `Receiver.search`. -/
def search (r : Receiver) (project _summary : String) (il : List String) (addIssueLabel : Bool)
    (alertHash : String) : Option SearchOutcome :=
  match searchQuery project il addIssueLabel alertHash with
  | none => none
  | some query =>
    match r.client.Search query searchOptions with
    | Reply.fail resp err =>
      let h := handleJiraError "Issue.Search" resp err
      some ⟨none, h.1, h.2, [Call.search query searchOptions]⟩
    | Reply.ok (issue :: _) => some ⟨some issue, false, none, [Call.search query searchOptions]⟩
    | Reply.ok [] => some ⟨none, false, none, [Call.search query searchOptions]⟩

/-- The loop of `Receiver.reopen` over the transitions, with the statement after the loop. -/
def reopenLoop (r : Receiver) (issueKey : String) : List Transition → Outcome
  | [] => ⟨false, some ("JIRA state " ++ quote r.conf.ReopenState
      ++ " does not exist or no transition possible for " ++ issueKey), []⟩
  | t :: rest =>
    if t.Name = r.conf.ReopenState then
      match r.client.DoTransition issueKey t.ID with
      | Reply.fail resp err =>
        let h := handleJiraError "Issue.DoTransition" resp err
        ⟨h.1, h.2, [Call.doTransition issueKey t.ID]⟩
      | Reply.ok _ => ⟨false, none, [Call.doTransition issueKey t.ID]⟩
    else reopenLoop r issueKey rest

/-- The method `Receiver.reopen`. -/
def reopen (r : Receiver) (issueKey : String) : Outcome :=
  match r.client.GetTransitions issueKey with
  | Reply.fail resp err =>
    let h := handleJiraError "Issue.GetTransitions" resp err
    ⟨h.1, h.2, [Call.getTransitions issueKey]⟩
  | Reply.ok transitions =>
    let o := reopenLoop r issueKey transitions
    ⟨o.retry, o.err, Call.getTransitions issueKey :: o.calls⟩

/-- The method `Receiver.create`. -/
def create (r : Receiver) (issue : Issue) : Outcome :=
  match r.client.Create issue with
  | Reply.fail resp err =>
    let h := handleJiraError "Issue.Create" resp err
    ⟨h.1, h.2, [Call.create issue]⟩
  | Reply.ok _ => ⟨false, none, [Call.create issue]⟩

/-! ## `Receiver.Notify` -/

/-- The values `Notify` has computed when it calls `search`: the rendered project, the error
state of the template engine right after that rendering, the label list, the dedup hash, the
rendered summary, and the template engine after these renderings. -/
structure Prepared where
  project : String
  projectErr : Option String
  issueLabel : List String
  alertHash : String
  summary : String
  tmpl : Template

/-- The renderings of `Notify` up to the call of `search`, in program order: the project, the
label list, the hash and the summary. -/
def prepare (r : Receiver) (data : Data) : Prepared :=
  let p := r.tmpl.Execute r.conf.Project data
  let issueLabel :=
    if r.conf.AddLabels then ["ALERT"] ++ toIssueLabel data.GroupLabels else []
  let h :=
    if r.conf.AlertHash ≠ "" then
      let e := p.2.Execute r.conf.AlertHash data
      (hexEncodeToString (sha1Sum (stringBytes e.1)), e.2)
    else ("", p.2)
  let s := h.2.Execute r.conf.Summary data
  ⟨p.1, p.2.err, issueLabel, h.1, s.1, s.2⟩

/-- The call `r.search(project, summary, issueLabel, addIssueLabel, alertHash)` of `Notify`. -/
def searched (r : Receiver) (data : Data) : Option SearchOutcome :=
  let p := prepare r data
  search r p.project p.summary p.issueLabel r.conf.AddLabels p.alertHash

/-- The block `if issue != nil` of `Notify` at the instant `now` of `time.Now()`: the return it
takes, or `none` when control leaves the block and goes on to the creation. -/
def existingIssue (r : Receiver) (issue : Issue) (now : Int) : Option Outcome :=
  if issue.Fields.Status ≠ "done" then some ⟨false, none, []⟩
  else if r.conf.WontFixResolution ≠ "" ∧
      issue.Fields.Resolution = some r.conf.WontFixResolution then some ⟨false, none, []⟩
  else if now < issue.Fields.Resolutiondate + r.conf.ReopenDuration then
    some (reopen r issue.Key)
  else none

/-- The renderings of a list of templates one after the other (the loop over the components). -/
def executeAll : List String → Template → Data → List String × Template
  | [], tmpl, _ => ([], tmpl)
  | c :: cs, tmpl, data =>
    let e := tmpl.Execute c data
    let es := executeAll cs e.2 data
    (e.1 :: es.1, es.2)

/-- The loop `issue.Fields.Unknowns[key] = deepCopyWithTemplate(value, r.tmpl, data)` over the
configured fields. -/
def copyFields : List (String × Value) → List (Key × Value) → Template → Data →
    List (Key × Value) × Template
  | [], unknowns, tmpl, _ => (unknowns, tmpl)
  | (key, value) :: rest, unknowns, tmpl, data =>
    let c := deepCopyWithTemplate value tmpl data
    copyFields rest (mapSet unknowns key c.1) c.2 data

/-- The issue that `Notify` assembles for creation, and the template engine after the renderings
of the assembly, in program order: issue type, description, summary, priority, components and
custom fields. -/
def newIssue (r : Receiver) (data : Data) (p : Prepared) : Issue × Template :=
  let ty := p.tmpl.Execute r.conf.IssueType data
  let de := ty.2.Execute r.conf.Description data
  let su := de.2.Execute r.conf.Summary data
  let pr :=
    if r.conf.Priority ≠ "" then
      let e := su.2.Execute r.conf.Priority data
      (some e.1, e.2)
    else (none, su.2)
  let co := executeAll r.conf.Components pr.2 data
  let labels :=
    if r.conf.AddGroupLabels then
      data.GroupLabels.foldl (fun ls kv => ls ++ [kv.1 ++ "=" ++ quote kv.2]) p.issueLabel
    else p.issueLabel
  let un := copyFields r.conf.Fields [] co.2 data
  (⟨"", "", ⟨p.project, ty.1, de.1 ++ "\n\nalert_hash=" ++ p.alertHash, su.1, labels, un.1,
      pr.1, co.1, "", none, 0⟩⟩, un.2)

/-- The end of `Notify`, from the assembly of the new issue on: the check of the template
engine's error state and the call of `create`. -/
def createNew (r : Receiver) (data : Data) (p : Prepared) : Outcome :=
  let n := newIssue r data p
  match n.2.err with
  | some e => ⟨false, some e, []⟩
  | none => create r n.1

/-- The method `Receiver.Notify`, run at the instant `now` of `time.Now()`. -/
def Notify (r : Receiver) (data : Data) (now : Int) : Option Outcome :=
  let p := prepare r data
  match p.projectErr with
  | some e => some ⟨false, some e, []⟩
  | none =>
    match searched r data with
    | none => none
    | some found =>
      match found.err with
      | some e => some ⟨found.retry, some e, found.calls⟩
      | none =>
        let existing :=
          match found.issue with
          | some issue => existingIssue r issue now
          | none => none
        match existing with
        | some o => some ⟨o.retry, o.err, found.calls ++ o.calls⟩
        | none =>
          let o := createNew r data p
          some ⟨o.retry, o.err, found.calls ++ o.calls⟩

/-! ## Reading a run's calls -/

/-- A call on the transition path: the listing of the transitions or the execution of one. -/
def Call.isTransition : Call → Bool
  | Call.getTransitions _ => true
  | Call.doTransition _ _ => true
  | _ => false

/-- The execution of a transition. -/
def Call.isDoTransition : Call → Bool
  | Call.doTransition _ _ => true
  | _ => false

/-- The creation of an issue. -/
def Call.isCreate : Call → Bool
  | Call.create _ => true
  | _ => false

/-- A search. -/
def Call.isSearch : Call → Bool
  | Call.search _ _ => true
  | _ => false

/-- The run gets past the rendering of the project and its search returns `issue`. -/
def SearchReturns (r : Receiver) (data : Data) (issue : Issue) : Prop :=
  (prepare r data).projectErr = none ∧
    (searched r data).map SearchOutcome.issue = some (some issue)

/-- The query of the run's search, when the building of the query does not fault. -/
def notifyQuery (r : Receiver) (data : Data) : Option String :=
  searchQuery (prepare r data).project (prepare r data).issueLabel r.conf.AddLabels
    (prepare r data).alertHash

/-- The decision NoOp read off a run: no call on the transition path and no creation. -/
def Outcome.isNoOp (o : Outcome) : Bool :=
  o.calls.all (fun c => !c.isTransition && !c.isCreate)

/-- The decision Reopen read off a run: the transition path only, no creation. -/
def Outcome.isReopen (o : Outcome) : Bool :=
  o.calls.any Call.isTransition && !o.calls.any Call.isCreate

/-- The decision Create read off a run: exactly one creation, no call on the transition path. -/
def Outcome.isCreate (o : Outcome) : Bool :=
  o.calls.countP Call.isCreate == 1 && !o.calls.any Call.isTransition

/-! ## Sample inputs -/

/-- A template engine that renders every text as itself, except the text `BAD`, whose rendering
fails. -/
def sampleTemplate : Template :=
  ⟨fun text _ => if text = "BAD" then ("", some "bad template") else (text, none), none⟩

/-- A resolved issue `K-1` with the given status category, resolution and resolution instant. -/
def sampleIssue (status : String) (resolution : Option String) (resolved : Int) : Issue :=
  ⟨"K-1", "1", ⟨"P", "Bug", "d", "s", [], [], none, [], status, resolution, resolved⟩⟩

/-- A tracker whose search returns the given issues, which offers the transitions `Reopen` and
`To Do`, and which accepts every transition and every creation. -/
def sampleClient (found : List Issue) : Client :=
  ⟨fun _ _ => Reply.ok found, fun _ => Reply.ok [⟨"7", "Reopen"⟩, ⟨"8", "To Do"⟩],
    fun _ _ => Reply.ok (), fun i => Reply.ok i⟩

/-- A receiver configuration with label dedup, the given summary and description templates, the
won't-fix resolution `Won't Fix`, the reopen state `To Do` and a reopen window of 10. -/
def sampleConf (summary description : String) : ReceiverConfig :=
  ⟨"P", "Bug", summary, description, "", [], [], "", true, false, "Won't Fix", "To Do", 10⟩

/-- An alert group with two group labels. -/
def sampleData : Data :=
  ⟨"r1", [("severity", "page"), ("alertname", "Disk")]⟩

/-- A receiver over the sample configuration whose search returns the given issues. -/
def sampleReceiver (summary description : String) (found : List Issue) : Receiver :=
  ⟨sampleConf summary description, sampleTemplate, sampleClient found⟩

/-- A receiver with hash dedup, whose hash template renders to `Disk-page`, without labels, and
whose search finds nothing. -/
def sampleHashReceiver : Receiver :=
  ⟨⟨"P", "Bug", "s", "d", "", [], [], "Disk-page", false, false, "", "To Do", 10⟩,
    sampleTemplate, sampleClient []⟩

/-! ## Further definitions for stating the properties -/

/-- The response of a call that the tracker answers with an error (`none` inside when the failure
came without a response), and `none` for a call that the tracker answers without error. -/
def replyFailure (cl : Client) : Call → Option (Option Response)
  | Call.search q o =>
    match cl.Search q o with
    | Reply.fail resp _ => some resp
    | Reply.ok _ => none
  | Call.getTransitions k =>
    match cl.GetTransitions k with
    | Reply.fail resp _ => some resp
    | Reply.ok _ => none
  | Call.doTransition k id =>
    match cl.DoTransition k id with
    | Reply.fail resp _ => some resp
    | Reply.ok _ => none
  | Call.create issue =>
    match cl.Create issue with
    | Reply.fail resp _ => some resp
    | Reply.ok _ => none

/-- A receiver over the sample configuration whose tracker answers every search with an error
response of the given status code. -/
def sampleDownReceiver (code : Int) : Receiver :=
  ⟨sampleConf "s" "d", sampleTemplate,
    ⟨fun _ _ => Reply.fail (some ⟨code, "status", "http://jira/search", "body"⟩) "failed",
      fun _ => Reply.ok [], fun _ _ => Reply.ok (), fun i => Reply.ok i⟩⟩

/-- A returned retry flag is backed by a failed call: when the flag is set the error is not
`nil` and the last call of the run was answered with status 500 or 503; when no call of the run
failed the flag is not set. -/
def RetrySound (cl : Client) (o : Outcome) : Prop :=
  (o.retry = true → o.err ≠ none ∧ ∃ c resp, o.calls.getLast? = some c ∧
      replyFailure cl c = some (some resp) ∧
      (resp.StatusCode = 500 ∨ resp.StatusCode = 503)) ∧
    ((∀ c ∈ o.calls, replyFailure cl c = none) → o.retry = false)

/-- The entries of a mapping whose key is a string, in order. -/
def stringEntries : List (Key × Value) → List (String × Value)
  | [] => []
  | (Key.str k, v) :: rest => (k, v) :: stringEntries rest
  | (_, _) :: rest => stringEntries rest

/-- A template engine that renders the text `$receiver` as the name of the receiver and every
other text as itself. -/
def sampleReceiverTemplate : Template :=
  ⟨fun text d => if text = "$receiver" then (d.Receiver, none) else (text, none), none⟩

mutual
/-- The texts that the walk of `deepCopyWithTemplate` renders, in the order of the walk: every
string leaf, and every string key followed by the texts of its value; the entry of a key that is
not a string is skipped with its value. -/
def walkTexts : Value → List String
  | Value.null => []
  | Value.str s => [s]
  | Value.seq xs => walkTextsSeq xs
  | Value.map entries => walkTextsMap entries
  | Value.bool _ => []
  | Value.int _ => []
/-- The texts rendered by the walk of the elements of a slice. -/
def walkTextsSeq : List Value → List String
  | [] => []
  | x :: xs => walkTexts x ++ walkTextsSeq xs
/-- The texts rendered by the walk of the entries of a map. -/
def walkTextsMap : List (Key × Value) → List String
  | [] => []
  | (Key.str k, v) :: rest => k :: (walkTexts v ++ walkTextsMap rest)
  | (_, _) :: rest => walkTextsMap rest
end

/-- The error state of the template engine after the renderings of a list of texts: the error
that was there, or else the first error among the renderings. -/
def recordErrors (render : String → Data → String × Option String) (data : Data) :
    Option String → List String → Option String
  | err, [] => err
  | some e, _ :: rest => recordErrors render data (some e) rest
  | none, s :: rest => recordErrors render data (render s data).2 rest

/-- A receiver with labels and group-label augmentation, whose search finds nothing. -/
def sampleGroupReceiver : Receiver :=
  ⟨⟨"P", "Bug", "s", "d", "", [], [], "", true, true, "", "To Do", 10⟩,
    sampleTemplate, sampleClient []⟩

/-- A character that `strconv.Quote` writes as it is: printable, and neither the double quote nor
the backslash. -/
def plainChar (c : Char) : Bool :=
  isPrint c && c != Char.ofNat 34 && c != Char.ofNat 92

/-- Whether the text `sub` occurs in the text `s`, as a run of consecutive characters. -/
def containsText (s sub : String) : Bool :=
  s.data.tails.any (fun t => sub.data.isPrefixOf t)

/-- A receiver whose configured reopen state has a double quote in its name, over the sample
tracker, which offers no transition of that name. -/
def sampleQuotedStateReceiver : Receiver :=
  ⟨⟨"P", "Bug", "s", "d", "", [], [], "", true, false, "", "Re\"open", 10⟩,
    sampleTemplate, sampleClient []⟩

/-- An alert group whose one group label has a value that ends in a backslash. -/
def samplePathData : Data :=
  ⟨"r1", [("path", "C:\\")]⟩

/-! ## Facts about the gateway operations -/

theorem search_some (r : Receiver) (project summary : String) (il : List String)
    (flag : Bool) (hash : String) (out : SearchOutcome)
    (h : search r project summary il flag hash = some out) :
    ∃ q, searchQuery project il flag hash = some q ∧
      out.calls = [Call.search q searchOptions] ∧
      (∀ issue, out.issue = some issue → out.err = none ∧ out.retry = false) := by
  unfold search at h
  cases hq : searchQuery project il flag hash with
  | none => simp [hq] at h
  | some q =>
    refine ⟨q, rfl, ?_⟩
    simp only [hq] at h
    cases hc : r.client.Search q searchOptions with
    | fail resp err =>
      simp only [hc, Option.some.injEq] at h
      subst h
      simp
    | ok found =>
      cases found with
      | nil =>
        simp only [hc, Option.some.injEq] at h
        subst h
        simp
      | cons a rest =>
        simp only [hc, Option.some.injEq] at h
        subst h
        simp

theorem searchReturns_elim (r : Receiver) (data : Data) (issue : Issue)
    (h : SearchReturns r data issue) :
    (prepare r data).projectErr = none ∧
      ∃ out q, searched r data = some out ∧ out.issue = some issue ∧ out.err = none ∧
        notifyQuery r data = some q ∧ out.calls = [Call.search q searchOptions] := by
  obtain ⟨hp, hs⟩ := h
  refine ⟨hp, ?_⟩
  cases ho : searched r data with
  | none => simp [ho] at hs
  | some out =>
    simp only [ho, Option.map_some', Option.some.injEq] at hs
    obtain ⟨q, hq, hc, hi⟩ := search_some r (prepare r data).project (prepare r data).summary
      (prepare r data).issueLabel r.conf.AddLabels (prepare r data).alertHash out ho
    exact ⟨out, q, rfl, hs, (hi issue hs).1, hq, hc⟩

/-- What `Notify` does once its search has returned an issue: the return of the block on the
existing issue, or else the creation. -/
theorem notify_of_found (r : Receiver) (data : Data) (now : Int) (issue : Issue)
    (h : SearchReturns r data issue) :
    ∃ q, notifyQuery r data = some q ∧
      Notify r data now = some
        (match existingIssue r issue now with
          | some o => ⟨o.retry, o.err, [Call.search q searchOptions] ++ o.calls⟩
          | none => ⟨(createNew r data (prepare r data)).retry,
              (createNew r data (prepare r data)).err,
              [Call.search q searchOptions] ++ (createNew r data (prepare r data)).calls⟩) := by
  obtain ⟨hp, out, q, hs, hi, he, hq, hc⟩ := searchReturns_elim r data issue h
  refine ⟨q, hq, ?_⟩
  unfold Notify
  simp only [hp, hs, he, hi, hc]
  cases existingIssue r issue now <;> rfl

theorem reopenLoop_calls (r : Receiver) (issueKey : String) (ts : List Transition) :
    (reopenLoop r issueKey ts).calls = [] ∨
      ∃ id, (reopenLoop r issueKey ts).calls = [Call.doTransition issueKey id] := by
  induction ts with
  | nil => left; rfl
  | cons t rest ih =>
    unfold reopenLoop
    by_cases hn : t.Name = r.conf.ReopenState
    · right
      refine ⟨t.ID, ?_⟩
      simp only [hn, if_true]
      cases r.client.DoTransition issueKey t.ID <;> rfl
    · simp only [hn, if_false]
      exact ih

theorem reopen_calls (r : Receiver) (issueKey : String) :
    (reopen r issueKey).calls = [Call.getTransitions issueKey] ∨
      ∃ id, (reopen r issueKey).calls =
        [Call.getTransitions issueKey, Call.doTransition issueKey id] := by
  unfold reopen
  cases hg : r.client.GetTransitions issueKey with
  | fail resp err => left; rfl
  | ok ts =>
    rcases reopenLoop_calls r issueKey ts with h | ⟨id, h⟩
    · left; simp [h]
    · right; exact ⟨id, by simp [h]⟩

theorem createNew_calls (r : Receiver) (data : Data) (p : Prepared) :
    (∀ e, (newIssue r data p).2.err = some e → createNew r data p = ⟨false, some e, []⟩) ∧
    ((newIssue r data p).2.err = none →
      (createNew r data p).calls = [Call.create (newIssue r data p).1]) := by
  constructor
  · intro e he
    simp [createNew, he]
  · intro he
    simp only [createNew, he]
    unfold create
    cases r.client.Create (newIssue r data p).1 <;> rfl

theorem existingIssue_not_done (r : Receiver) (issue : Issue) (now : Int)
    (hs : issue.Fields.Status ≠ "done") :
    existingIssue r issue now = some ⟨false, none, []⟩ := by
  simp [existingIssue, hs]

theorem existingIssue_wontfix (r : Receiver) (issue : Issue) (now : Int)
    (hw : r.conf.WontFixResolution ≠ "")
    (hr : issue.Fields.Resolution = some r.conf.WontFixResolution) :
    existingIssue r issue now = some ⟨false, none, []⟩ := by
  simp [existingIssue, hw, hr]

theorem existingIssue_done (r : Receiver) (issue : Issue) (now : Int)
    (hd : issue.Fields.Status = "done")
    (hw : issue.Fields.Resolution ≠ some r.conf.WontFixResolution) :
    existingIssue r issue now =
      if now < issue.Fields.Resolutiondate + r.conf.ReopenDuration then
        some (reopen r issue.Key)
      else none := by
  simp [existingIssue, hd, hw]

/-! ## The decision of `Notify` on an issue that the search returned -/

/-- C1 (as amended). When the search of a run returns an issue of status category `done` whose
resolution is not the configured won't-fix resolution, resolved at `T` with reopen window `W`:
if `now < T + W`, `Notify` returns what `reopen` returns on the key of that issue, its calls are
the search followed by the calls of `reopen` (the listing of the transitions of that key first,
then only executions of a transition), and none of them is a creation; if `T + W ≤ now`,
`Notify` goes on to the creation and calls nothing on the transition path: it calls `create`
once, with the assembled issue, when no render error is recorded after the assembly, and it
returns that error without retry and without a creation when one is recorded. -/
theorem notify_reopen_window (r : Receiver) (data : Data) (now : Int) (issue : Issue)
    (hs : SearchReturns r data issue) (hd : issue.Fields.Status = "done")
    (hw : issue.Fields.Resolution ≠ some r.conf.WontFixResolution) :
    ∃ q, notifyQuery r data = some q ∧
      (now < issue.Fields.Resolutiondate + r.conf.ReopenDuration →
        Notify r data now = some ⟨(reopen r issue.Key).retry, (reopen r issue.Key).err,
          [Call.search q searchOptions] ++ (reopen r issue.Key).calls⟩ ∧
        (∃ rest, (reopen r issue.Key).calls = Call.getTransitions issue.Key :: rest ∧
          ∀ c ∈ rest, c.isDoTransition = true) ∧
        ∀ c ∈ (reopen r issue.Key).calls, c.isCreate = false) ∧
      (issue.Fields.Resolutiondate + r.conf.ReopenDuration ≤ now →
        Notify r data now = some ⟨(createNew r data (prepare r data)).retry,
          (createNew r data (prepare r data)).err,
          [Call.search q searchOptions] ++ (createNew r data (prepare r data)).calls⟩ ∧
        (∀ c ∈ (createNew r data (prepare r data)).calls, c.isTransition = false) ∧
        ((newIssue r data (prepare r data)).2.err = none →
          (createNew r data (prepare r data)).calls =
            [Call.create (newIssue r data (prepare r data)).1]) ∧
        ∀ e, (newIssue r data (prepare r data)).2.err = some e →
          createNew r data (prepare r data) = ⟨false, some e, []⟩) := by
  obtain ⟨q, hq, hn⟩ := notify_of_found r data now issue hs
  refine ⟨q, hq, ?_, ?_⟩
  · intro hlt
    rw [existingIssue_done r issue now hd hw, if_pos hlt] at hn
    refine ⟨hn, ?_, ?_⟩
    · rcases reopen_calls r issue.Key with h | ⟨id, h⟩
      · exact ⟨[], h, by simp⟩
      · exact ⟨[Call.doTransition issue.Key id], h, by simp [Call.isDoTransition]⟩
    · rcases reopen_calls r issue.Key with h | ⟨id, h⟩ <;> simp [h, Call.isCreate]
  · intro hge
    rw [existingIssue_done r issue now hd hw, if_neg (not_lt.mpr hge)] at hn
    obtain ⟨herr, hok⟩ := createNew_calls r data (prepare r data)
    refine ⟨hn, ?_, hok, herr⟩
    cases he : (newIssue r data (prepare r data)).2.err with
    | none => simp [hok he, Call.isTransition]
    | some e => simp [herr e he]

/-- C1 (counterexample). The search returns an issue of status category `done` with no
resolution name, resolved at 0 with window 10, and the run is at 10, so `now ≥ T + W`; the
description template fails to render, and the run creates no issue: it returns the render error
after the search alone. -/
theorem notify_window_elapsed_no_create :
    SearchReturns (sampleReceiver "s" "BAD" [sampleIssue "done" none 0]) sampleData
        (sampleIssue "done" none 0) ∧
      (sampleIssue "done" none 0).Fields.Status = "done" ∧
      (sampleIssue "done" none 0).Fields.Resolution ≠
        some (sampleReceiver "s" "BAD" [sampleIssue "done" none 0]).conf.WontFixResolution ∧
      (sampleIssue "done" none 0).Fields.Resolutiondate +
        (sampleReceiver "s" "BAD" [sampleIssue "done" none 0]).conf.ReopenDuration ≤ 10 ∧
      (Notify (sampleReceiver "s" "BAD" [sampleIssue "done" none 0]) sampleData 10).map
        (fun o => (o.retry, o.err, o.calls.map Call.isCreate)) =
        some (false, some "bad template", [false]) := by
  refine ⟨⟨rfl, rfl⟩, rfl, ?_, ?_, ?_⟩ <;> decide

/-- C1 (witness). The amended statement on an issue resolved at 0 with window 10, for a run
at 9: the hypotheses hold, the query is built, and the run lists the transitions and executes
one after its search. -/
theorem notify_reopen_window_witness :
    SearchReturns (sampleReceiver "s" "d" [sampleIssue "done" none 0]) sampleData
        (sampleIssue "done" none 0) ∧
      (∃ q, notifyQuery (sampleReceiver "s" "d" [sampleIssue "done" none 0]) sampleData
        = some q) ∧
      (Notify (sampleReceiver "s" "d" [sampleIssue "done" none 0]) sampleData 9).map
          (fun o => o.calls.map Call.isTransition) = some [false, true, true] :=
  match notify_reopen_window (sampleReceiver "s" "d" [sampleIssue "done" none 0]) sampleData 9
      (sampleIssue "done" none 0) ⟨rfl, rfl⟩ rfl (by decide) with
  | ⟨q, hq, _, _⟩ => ⟨⟨rfl, rfl⟩, ⟨q, hq⟩, by decide⟩

/-- C2 (as amended). When the search of a run returns an issue of status category `done` whose
resolution is not the configured won't-fix resolution and `now - resolutionTime` is strictly
less than the reopen window, `Notify` reopens that issue: it returns what `reopen` returns on
the key of the issue, and its calls are the search followed by the calls of `reopen`, which
start with the listing of the transitions of that key. -/
theorem notify_reopen_within_window (r : Receiver) (data : Data) (now : Int) (issue : Issue)
    (hs : SearchReturns r data issue) (hd : issue.Fields.Status = "done")
    (hw : issue.Fields.Resolution ≠ some r.conf.WontFixResolution)
    (hlt : now - issue.Fields.Resolutiondate < r.conf.ReopenDuration) :
    ∃ q rest, notifyQuery r data = some q ∧
      Notify r data now = some ⟨(reopen r issue.Key).retry, (reopen r issue.Key).err,
        [Call.search q searchOptions] ++ (reopen r issue.Key).calls⟩ ∧
      (reopen r issue.Key).calls = Call.getTransitions issue.Key :: rest := by
  obtain ⟨q, hq, hn⟩ := notify_of_found r data now issue hs
  have hlt2 : now < issue.Fields.Resolutiondate + r.conf.ReopenDuration := by omega
  rw [existingIssue_done r issue now hd hw, if_pos hlt2] at hn
  rcases reopen_calls r issue.Key with h | ⟨id, h⟩
  · exact ⟨q, [], hq, hn, h⟩
  · exact ⟨q, [Call.doTransition issue.Key id], hq, hn, h⟩

/-- C2 (counterexample). The search returns an issue of status category `done` with no
resolution name, resolved at 0, the window is 10 and the run is at 10, so
`now - resolutionTime` equals the window: the run calls nothing on the transition path and
creates a new issue. -/
theorem notify_window_boundary_creates :
    SearchReturns (sampleReceiver "s" "d" [sampleIssue "done" none 0]) sampleData
        (sampleIssue "done" none 0) ∧
      (sampleIssue "done" none 0).Fields.Status = "done" ∧
      (sampleIssue "done" none 0).Fields.Resolution ≠
        some (sampleReceiver "s" "d" [sampleIssue "done" none 0]).conf.WontFixResolution ∧
      10 - (sampleIssue "done" none 0).Fields.Resolutiondate ≤
        (sampleReceiver "s" "d" [sampleIssue "done" none 0]).conf.ReopenDuration ∧
      (Notify (sampleReceiver "s" "d" [sampleIssue "done" none 0]) sampleData 10).map
        (fun o => (o.calls.map Call.isTransition, o.calls.map Call.isCreate)) =
        some ([false, false], [false, true]) := by
  refine ⟨⟨rfl, rfl⟩, rfl, ?_, ?_, ?_⟩ <;> decide

/-- C2 (witness). The amended statement for a run at 9 on an issue resolved at 0 with
window 10. -/
theorem notify_reopen_within_window_witness :
    SearchReturns (sampleReceiver "s" "d" [sampleIssue "done" none 0]) sampleData
        (sampleIssue "done" none 0) ∧
      (9 : Int) - (sampleIssue "done" none 0).Fields.Resolutiondate <
        (sampleReceiver "s" "d" [sampleIssue "done" none 0]).conf.ReopenDuration ∧
      ∃ q rest,
        notifyQuery (sampleReceiver "s" "d" [sampleIssue "done" none 0]) sampleData = some q ∧
        Notify (sampleReceiver "s" "d" [sampleIssue "done" none 0]) sampleData 9 =
          some ⟨(reopen (sampleReceiver "s" "d" [sampleIssue "done" none 0])
              (sampleIssue "done" none 0).Key).retry,
            (reopen (sampleReceiver "s" "d" [sampleIssue "done" none 0])
              (sampleIssue "done" none 0).Key).err,
            [Call.search q searchOptions] ++
              (reopen (sampleReceiver "s" "d" [sampleIssue "done" none 0])
                (sampleIssue "done" none 0).Key).calls⟩ ∧
        (reopen (sampleReceiver "s" "d" [sampleIssue "done" none 0])
          (sampleIssue "done" none 0).Key).calls =
          Call.getTransitions (sampleIssue "done" none 0).Key :: rest :=
  ⟨⟨rfl, rfl⟩, by decide,
    notify_reopen_within_window (sampleReceiver "s" "d" [sampleIssue "done" none 0]) sampleData 9
      (sampleIssue "done" none 0) ⟨rfl, rfl⟩ rfl (by decide) (by decide)⟩

/-- C3. When the search of a run returns an issue whose status category key is not `done`,
`Notify` returns no retry and no error, and the search is the only call it makes: it lists no
transitions, executes no transition and creates no issue, whatever the resolution, the
resolution time, the reopen window and the current time are. -/
theorem notify_not_done_noop (r : Receiver) (data : Data) (now : Int) (issue : Issue)
    (hs : SearchReturns r data issue) (hn : issue.Fields.Status ≠ "done") :
    ∃ q, notifyQuery r data = some q ∧
      Notify r data now = some ⟨false, none, [Call.search q searchOptions]⟩ := by
  obtain ⟨q, hq, h⟩ := notify_of_found r data now issue hs
  rw [existingIssue_not_done r issue now hn] at h
  exact ⟨q, hq, h⟩

/-- C3 (witness). A run whose search returns an issue in progress, resolved at 0 within the
window: the search is its only call. -/
theorem notify_not_done_noop_witness :
    SearchReturns (sampleReceiver "s" "d" [sampleIssue "indeterminate" none 0]) sampleData
        (sampleIssue "indeterminate" none 0) ∧
      (sampleIssue "indeterminate" none 0).Fields.Status ≠ "done" ∧
      ∃ q,
        notifyQuery (sampleReceiver "s" "d" [sampleIssue "indeterminate" none 0]) sampleData
          = some q ∧
        Notify (sampleReceiver "s" "d" [sampleIssue "indeterminate" none 0]) sampleData 5 =
          some ⟨false, none, [Call.search q searchOptions]⟩ :=
  ⟨⟨rfl, rfl⟩, by decide,
    notify_not_done_noop (sampleReceiver "s" "d" [sampleIssue "indeterminate" none 0])
      sampleData 5 (sampleIssue "indeterminate" none 0) ⟨rfl, rfl⟩ (by decide)⟩

/-- C4. When the search of a run returns an issue of status category `done` whose resolution
name is the receiver's configured, non-empty won't-fix resolution name, `Notify` returns no
retry and no error, and the search is the only call it makes: it neither reopens nor creates
an issue, for every resolution time, reopen window and current time. -/
theorem notify_wontfix_noop (r : Receiver) (data : Data) (now : Int) (issue : Issue)
    (hs : SearchReturns r data issue) (hd : issue.Fields.Status = "done")
    (hw : r.conf.WontFixResolution ≠ "")
    (hr : issue.Fields.Resolution = some r.conf.WontFixResolution) :
    ∃ q, notifyQuery r data = some q ∧
      Notify r data now = some ⟨false, none, [Call.search q searchOptions]⟩ := by
  obtain ⟨q, hq, h⟩ := notify_of_found r data now issue hs
  have he : existingIssue r issue now = some ⟨false, none, []⟩ := by
    simp [existingIssue, hd, hw, hr]
  rw [he] at h
  exact ⟨q, hq, h⟩

/-- C4 (witness). A run at 5 whose search returns an issue resolved as `Won't Fix` at 0, within
the window of 10: the search is its only call. -/
theorem notify_wontfix_noop_witness :
    SearchReturns (sampleReceiver "s" "d" [sampleIssue "done" (some "Won't Fix") 0]) sampleData
        (sampleIssue "done" (some "Won't Fix") 0) ∧
      (5 : Int) < (sampleIssue "done" (some "Won't Fix") 0).Fields.Resolutiondate +
        (sampleReceiver "s" "d" [sampleIssue "done" (some "Won't Fix") 0]).conf.ReopenDuration ∧
      ∃ q,
        notifyQuery (sampleReceiver "s" "d" [sampleIssue "done" (some "Won't Fix") 0])
          sampleData = some q ∧
        Notify (sampleReceiver "s" "d" [sampleIssue "done" (some "Won't Fix") 0]) sampleData 5 =
          some ⟨false, none, [Call.search q searchOptions]⟩ :=
  ⟨⟨rfl, rfl⟩, by decide,
    notify_wontfix_noop (sampleReceiver "s" "d" [sampleIssue "done" (some "Won't Fix") 0])
      sampleData 5 (sampleIssue "done" (some "Won't Fix") 0) ⟨rfl, rfl⟩ rfl (by decide) rfl⟩

/-! ## The query of `search` -/

theorem bufferTruncate_space (s : String) :
    bufferTruncate (s ++ " ") (((s ++ " ").length : Int) - 1) = some s := by
  have hl : (s ++ " ").length = s.length + 1 := by
    rw [String.length_append]
    rfl
  have hd : (s ++ " ").data = s.data ++ [' '] := by
    rw [String.data_append]
  unfold bufferTruncate
  rw [hl, if_neg (by omega)]
  have ht : ((((s.length + 1 : Nat) : Int) - 1).toNat) = s.data.length := by
    have : s.data.length = s.length := rfl
    omega
  rw [ht, hd, List.take_left]

theorem searchLabels_foldl (ls : List String) (x : String) :
    ls.foldl (fun buf l => buf ++ ("and labels=" ++ quote l ++ " ")) (x ++ " ") =
      String.intercalate.go x " " (ls.map (fun l => "and labels=" ++ quote l)) ++ " " := by
  induction ls generalizing x with
  | nil => rfl
  | cons m ms ih =>
    simp only [List.foldl_cons, List.map_cons, String.intercalate.go]
    rw [← ih (x ++ " " ++ ("and labels=" ++ quote m))]
    simp only [String.append_assoc]

theorem searchLabelsBuffer_cons (l : String) (ls : List String) :
    searchLabelsBuffer (l :: ls) =
      String.intercalate " " ((l :: ls).map (fun x => "and labels=" ++ quote x)) ++ " " := by
  unfold searchLabelsBuffer
  simp only [List.foldl_cons, List.map_cons, String.intercalate]
  rw [← searchLabels_foldl ls ("and labels=" ++ quote l), String.empty_append]

theorem searchQuery_labels (project l : String) (ls : List String) :
    searchQuery project (l :: ls) true "" =
      some ("project=" ++ project ++ " "
        ++ String.intercalate " " ((l :: ls).map (fun x => "and labels=" ++ quote x))
        ++ " order by key DESC") := by
  unfold searchQuery
  simp only [ne_eq, not_true_eq_false, if_false, if_true]
  rw [searchLabelsBuffer_cons, bufferTruncate_space]

theorem searchQuery_isSome (project : String) (il : List String) (flag : Bool) (hash : String)
    (h : hash = "" → flag = true → il ≠ []) :
    ∃ q, searchQuery project il flag hash = some q := by
  by_cases hh : hash = ""
  · subst hh
    cases flag with
    | false => exact ⟨"project=" ++ project ++ " order by key DESC", by simp [searchQuery]⟩
    | true =>
      cases il with
      | nil => exact absurd rfl (h rfl rfl)
      | cons l ls => exact ⟨_, searchQuery_labels project l ls⟩
  · exact ⟨"project=" ++ project ++ " and description~\"alert_hash=" ++ hash
      ++ "\" order by key DESC", by simp [searchQuery, hh]⟩

theorem search_of_query (r : Receiver) (project summary : String) (il : List String)
    (flag : Bool) (hash q : String) (h : searchQuery project il flag hash = some q) :
    ∃ out, search r project summary il flag hash = some out := by
  unfold search
  simp only [h]
  cases r.client.Search q searchOptions with
  | fail resp err => exact ⟨_, rfl⟩
  | ok found =>
    cases found with
    | nil => exact ⟨_, rfl⟩
    | cons a rest => exact ⟨_, rfl⟩

theorem prepare_issueLabel (r : Receiver) (data : Data) (h : r.conf.AddLabels = true) :
    (prepare r data).issueLabel = "ALERT" :: toIssueLabel data.GroupLabels := by
  simp [prepare, h]

theorem searched_some (r : Receiver) (data : Data) :
    ∃ out q, searched r data = some out ∧ notifyQuery r data = some q ∧
      out.calls = [Call.search q searchOptions] := by
  obtain ⟨q, hq⟩ := searchQuery_isSome (prepare r data).project (prepare r data).issueLabel
    r.conf.AddLabels (prepare r data).alertHash
    (fun _ hf => by rw [prepare_issueLabel r data hf]; simp)
  obtain ⟨out, ho⟩ := search_of_query r (prepare r data).project (prepare r data).summary
    (prepare r data).issueLabel r.conf.AddLabels (prepare r data).alertHash q hq
  obtain ⟨q2, hq2, hc, _⟩ := search_some r _ _ _ _ _ out ho
  rw [hq] at hq2
  cases hq2
  exact ⟨out, q, ho, hq, hc⟩

theorem existingIssue_cases (r : Receiver) (issue : Issue) (now : Int) :
    existingIssue r issue now = none ∨
      existingIssue r issue now = some ⟨false, none, []⟩ ∨
      existingIssue r issue now = some (reopen r issue.Key) := by
  unfold existingIssue
  split_ifs <;> simp

/-- The calls of a run of `Notify`: none, or the search alone, or the search followed by the
listing of the transitions of a key and at most one execution of a transition of that key, or
the search followed by the creation of the assembled issue. -/
theorem notify_calls (r : Receiver) (data : Data) (now : Int) :
    ∃ o, Notify r data now = some o ∧
      (o.calls = [] ∨ ∃ q, notifyQuery r data = some q ∧
        (o.calls = [Call.search q searchOptions] ∨
          (∃ k, o.calls = [Call.search q searchOptions, Call.getTransitions k]) ∨
          (∃ k id, o.calls = [Call.search q searchOptions, Call.getTransitions k,
            Call.doTransition k id]) ∨
          o.calls = [Call.search q searchOptions,
            Call.create (newIssue r data (prepare r data)).1])) := by
  obtain ⟨out, q, hs, hq, hc⟩ := searched_some r data
  cases hp : (prepare r data).projectErr with
  | some e => exact ⟨⟨false, some e, []⟩, by simp only [Notify, hp], Or.inl rfl⟩
  | none =>
    cases he : out.err with
    | some e =>
      exact ⟨⟨out.retry, some e, out.calls⟩, by simp only [Notify, hp, hs, he],
        Or.inr ⟨q, hq, Or.inl hc⟩⟩
    | none =>
      have hcreate : ∀ cs : List Call, cs = [Call.search q searchOptions] ++
          (createNew r data (prepare r data)).calls →
          (cs = [Call.search q searchOptions] ∨
          (∃ k, cs = [Call.search q searchOptions, Call.getTransitions k]) ∨
          (∃ k id, cs = [Call.search q searchOptions, Call.getTransitions k,
            Call.doTransition k id]) ∨
          cs = [Call.search q searchOptions,
            Call.create (newIssue r data (prepare r data)).1]) := by
        intro cs ho
        obtain ⟨herr, hok⟩ := createNew_calls r data (prepare r data)
        cases hn : (newIssue r data (prepare r data)).2.err with
        | none =>
          rw [hok hn] at ho
          exact Or.inr (Or.inr (Or.inr ho))
        | some e =>
          rw [herr e hn] at ho
          exact Or.inl ho
      cases hi : out.issue with
      | none =>
        exact ⟨⟨(createNew r data (prepare r data)).retry,
            (createNew r data (prepare r data)).err,
            out.calls ++ (createNew r data (prepare r data)).calls⟩,
          by simp only [Notify, hp, hs, he, hi],
          Or.inr ⟨q, hq, hcreate _ (by rw [hc])⟩⟩
      | some issue =>
        rcases existingIssue_cases r issue now with h | h | h
        · exact ⟨⟨(createNew r data (prepare r data)).retry,
              (createNew r data (prepare r data)).err,
              out.calls ++ (createNew r data (prepare r data)).calls⟩,
            by simp only [Notify, hp, hs, he, hi, h],
            Or.inr ⟨q, hq, hcreate _ (by rw [hc])⟩⟩
        · exact ⟨⟨false, none, out.calls ++ []⟩, by simp only [Notify, hp, hs, he, hi, h],
            Or.inr ⟨q, hq, Or.inl (by simp [hc])⟩⟩
        · refine ⟨⟨(reopen r issue.Key).retry, (reopen r issue.Key).err,
              out.calls ++ (reopen r issue.Key).calls⟩,
            by simp only [Notify, hp, hs, he, hi, h], Or.inr ⟨q, hq, ?_⟩⟩
          rcases reopen_calls r issue.Key with hr | ⟨id, hr⟩
          · exact Or.inr (Or.inl ⟨issue.Key, by simp [hc, hr]⟩)
          · exact Or.inr (Or.inr (Or.inl ⟨issue.Key, id, by simp [hc, hr]⟩))

/-- C5. Every run of `Notify` returns, and exactly one of the three decisions can be read off
its calls: NoOp (no call on the transition path and no creation), Reopen (calls on the
transition path and no creation) or Create (exactly one creation and no call on the transition
path); no run both executes a transition and creates an issue, and no run makes more than one
creation. -/
theorem notify_one_decision (r : Receiver) (data : Data) (now : Int) :
    ∃ o, Notify r data now = some o ∧
      ((o.isNoOp = true ∧ o.isReopen = false ∧ o.isCreate = false) ∨
        (o.isNoOp = false ∧ o.isReopen = true ∧ o.isCreate = false) ∨
        (o.isNoOp = false ∧ o.isReopen = false ∧ o.isCreate = true)) ∧
      ¬ (o.calls.any Call.isDoTransition = true ∧ o.calls.any Call.isCreate = true) ∧
      o.calls.countP Call.isCreate ≤ 1 := by
  obtain ⟨o, ho, hc⟩ := notify_calls r data now
  refine ⟨o, ho, ?_⟩
  rcases hc with h | ⟨q, _, h | ⟨k, h⟩ | ⟨k, id, h⟩ | h⟩ <;>
    simp [Outcome.isNoOp, Outcome.isReopen, Outcome.isCreate, h, Call.isTransition,
      Call.isCreate, Call.isDoTransition]

/-! ## Render errors -/

/-- C6 (as amended). When the rendering of the project records a render error, `Notify` returns
that error without retry and makes no call at all. When a run gets past its search and the block
on the found issue and a render error is recorded in the template engine at the end of the
assembly of the new issue, `Notify` returns that error without retry and makes no creation: the
search is its only call. -/
theorem notify_render_error (r : Receiver) (data : Data) (now : Int) :
    (∀ e, (prepare r data).projectErr = some e →
      Notify r data now = some ⟨false, some e, []⟩) ∧
    (∀ out e, (prepare r data).projectErr = none → searched r data = some out →
      out.err = none → (∀ issue, out.issue = some issue → existingIssue r issue now = none) →
      (newIssue r data (prepare r data)).2.err = some e →
      ∃ q, notifyQuery r data = some q ∧
        Notify r data now = some ⟨false, some e, [Call.search q searchOptions]⟩) := by
  constructor
  · intro e hp
    simp only [Notify, hp]
  · intro out e hp hs he hx hn
    obtain ⟨out2, q, hs2, hq, hc⟩ := searched_some r data
    rw [hs] at hs2
    cases hs2
    refine ⟨q, hq, ?_⟩
    have hnew := (createNew_calls r data (prepare r data)).1 e hn
    cases hi : out.issue with
    | none => simp [Notify, hp, hs, he, hi, hnew, hc]
    | some issue => simp [Notify, hp, hs, he, hi, hx issue hi, hnew, hc]

/-- C6 (counterexample). The description template fails to render in a run whose search finds
no issue: the render error is recorded and returned without retry, after the run has made a
call to the tracker, its search. -/
theorem notify_render_error_after_search :
    (newIssue (sampleReceiver "s" "BAD" []) sampleData
        (prepare (sampleReceiver "s" "BAD" []) sampleData)).2.err = some "bad template" ∧
      (Notify (sampleReceiver "s" "BAD" []) sampleData 0).map
        (fun o => (o.retry, o.err, o.calls.map Call.isSearch)) =
        some (false, some "bad template", [true]) := by
  constructor <;> decide

/-- C6 (witness). The amended statement on a receiver whose project template fails to render,
and on a receiver whose description template fails to render and whose search finds nothing. -/
theorem notify_render_error_witness :
    Notify ⟨⟨"BAD", "Bug", "s", "d", "", [], [], "", true, false, "", "To Do", 10⟩,
        sampleTemplate, sampleClient []⟩ sampleData 0 = some ⟨false, some "bad template", []⟩ ∧
      ∃ q, notifyQuery (sampleReceiver "s" "BAD" []) sampleData = some q ∧
        Notify (sampleReceiver "s" "BAD" []) sampleData 0 =
          some ⟨false, some "bad template", [Call.search q searchOptions]⟩ :=
  ⟨(notify_render_error ⟨⟨"BAD", "Bug", "s", "d", "", [], [], "", true, false, "", "To Do", 10⟩,
        sampleTemplate, sampleClient []⟩ sampleData 0).1 "bad template" rfl,
    (notify_render_error (sampleReceiver "s" "BAD" []) sampleData 0).2
      ⟨none, false, none, [Call.search
        "project=P and labels=\"ALERT\" and labels=\"Disk\" and labels=\"page\" order by key DESC"
        searchOptions]⟩ "bad template" rfl rfl rfl (fun _ h => nomatch h) rfl⟩

/-- A run whose summary template fails to render still searches, and when the search returns an
issue that is not done the run returns no error at all. -/
theorem notify_summary_error_unchecked :
    (prepare (sampleReceiver "BAD" "d" [sampleIssue "new" none 0]) sampleData).tmpl.err =
        some "bad template" ∧
      (Notify (sampleReceiver "BAD" "d" [sampleIssue "new" none 0]) sampleData 0).map
        (fun o => (o.retry, o.err, o.calls.map Call.isSearch)) = some (false, none, [true]) := by
  constructor <;> decide

/-! ## `handleJiraError` -/

theorem tdiv_hundred_eq_two (c : Int) : c.tdiv 100 = 2 ↔ 200 ≤ c ∧ c ≤ 299 := by
  rcases le_or_lt 0 c with h | h
  · rw [Int.tdiv_eq_ediv h (by decide)]
    omega
  · have h1 : 0 ≤ (-c).tdiv 100 := Int.tdiv_nonneg (by omega) (by decide)
    have h2 : c.tdiv 100 = -((-c).tdiv 100) := by
      rw [Int.neg_tdiv, neg_neg]
    constructor
    · intro h3
      omega
    · intro h3
      omega

/-- C7. For every call of `handleJiraError`: when a response is present with a status code
outside 200..299, the retry flag returned is true exactly when the status code is 500 or 503;
when no response is present, the retry flag is false. -/
theorem handleJiraError_retry (api err : String) :
    (∀ resp : Response, ¬ (200 ≤ resp.StatusCode ∧ resp.StatusCode ≤ 299) →
      ((handleJiraError api (some resp) err).1 = true ↔
        (resp.StatusCode = 500 ∨ resp.StatusCode = 503))) ∧
    (handleJiraError api none err).1 = false := by
  refine ⟨?_, rfl⟩
  intro resp h2
  have hne : resp.StatusCode.tdiv 100 ≠ 2 := fun h => h2 ((tdiv_hundred_eq_two _).mp h)
  simp [handleJiraError, hne]

/-- C7 (witness). The statuses 503 and 404, and a failure without a response. -/
theorem handleJiraError_retry_witness :
    (handleJiraError "Issue.Create" (some ⟨503, "503 Service Unavailable", "u", ""⟩) "e").1
        = true ∧
      (handleJiraError "Issue.Create" (some ⟨404, "404 Not Found", "u", ""⟩) "e").1 = false ∧
      (handleJiraError "Issue.Create" none "e").1 = false :=
  ⟨((handleJiraError_retry "Issue.Create" "e").1 ⟨503, "503 Service Unavailable", "u", ""⟩
      (by decide)).mpr (Or.inr rfl),
    by
      have h := (handleJiraError_retry "Issue.Create" "e").1 ⟨404, "404 Not Found", "u", ""⟩
        (by decide)
      cases hb : (handleJiraError "Issue.Create" (some ⟨404, "404 Not Found", "u", ""⟩) "e").1
      · rfl
      · exact absurd (h.mp hb) (by decide),
    (handleJiraError_retry "Issue.Create" "e").2⟩

/-! ## The description of a created issue -/

theorem execute_fst (t : Template) (text : String) (data : Data) :
    (t.Execute text data).1 = (t.render text data).1 := rfl

theorem execute_render (t : Template) (text : String) (data : Data) :
    (t.Execute text data).2.render = t.render := rfl

theorem prepare_tmpl_render (r : Receiver) (data : Data) :
    (prepare r data).tmpl.render = r.tmpl.render := by
  unfold prepare
  by_cases h : r.conf.AlertHash = "" <;> simp [h, execute_render]

theorem prepare_alertHash (r : Receiver) (data : Data) :
    (prepare r data).alertHash =
      if r.conf.AlertHash = "" then ""
      else hexEncodeToString (sha1Sum (stringBytes (r.tmpl.render r.conf.AlertHash data).1)) := by
  unfold prepare
  by_cases h : r.conf.AlertHash = "" <;> simp [h, execute_render, execute_fst]

theorem newIssue_description (r : Receiver) (data : Data) (p : Prepared) :
    (newIssue r data p).1.Fields.Description =
      (p.tmpl.render r.conf.Description data).1 ++ "\n\nalert_hash=" ++ p.alertHash := rfl

theorem hexDigit_mem : ∀ n, n < 16 → hexDigit n ∈ "0123456789abcdef".data := by
  decide

theorem hexEncodeToString_length (bs : List Nat) :
    (hexEncodeToString bs).length = 2 * bs.length := by
  show (bs.flatMap hexByte).length = 2 * bs.length
  induction bs with
  | nil => rfl
  | cons b rest ih =>
    simp only [List.flatMap_cons, List.length_append, List.length_cons, ih, hexByte,
      List.length_nil]
    omega

theorem hexEncodeToString_chars (bs : List Nat) :
    ∀ c ∈ (hexEncodeToString bs).data, c ∈ "0123456789abcdef".data := by
  intro c hc
  have hc2 : c ∈ bs.flatMap hexByte := hc
  rw [List.mem_flatMap] at hc2
  obtain ⟨b, _, hb⟩ := hc2
  simp only [hexByte, List.mem_cons, List.mem_singleton, List.not_mem_nil, or_false] at hb
  rcases hb with h | h
  · rw [h]
    exact hexDigit_mem _ (Nat.mod_lt _ (by decide))
  · rw [h]
    exact hexDigit_mem _ (Nat.mod_lt _ (by decide))

theorem sha1Sum_length (msg : List Nat) : (sha1Sum msg).length = 20 := by
  simp [sha1Sum, wordBytes]

/-- C8. In every run of `Notify` that calls `create`, the description of the issue passed is
the rendered description template followed by two line feeds, `alert_hash=` and the hash of the
run, where the hash is the empty string when no hash template is configured and otherwise the
hexadecimal encoding of the SHA-1 digest of the rendered hash template: 40 characters, each
among `0`..`9` and `a`..`f`. -/
theorem notify_create_description (r : Receiver) (data : Data) (now : Int) (o : Outcome)
    (issue : Issue) (hn : Notify r data now = some o) (hc : Call.create issue ∈ o.calls) :
    issue.Fields.Description =
        (r.tmpl.render r.conf.Description data).1 ++ "\n\nalert_hash="
          ++ (prepare r data).alertHash ∧
      (r.conf.AlertHash = "" → (prepare r data).alertHash = "") ∧
      (r.conf.AlertHash ≠ "" →
        (prepare r data).alertHash =
          hexEncodeToString (sha1Sum (stringBytes (r.tmpl.render r.conf.AlertHash data).1)) ∧
        (prepare r data).alertHash.length = 40 ∧
        ∀ c ∈ (prepare r data).alertHash.data, c ∈ "0123456789abcdef".data) := by
  obtain ⟨o2, ho2, hshape⟩ := notify_calls r data now
  rw [hn] at ho2
  cases ho2
  have hi : issue = (newIssue r data (prepare r data)).1 := by
    rcases hshape with h | ⟨q, _, h | ⟨k, h⟩ | ⟨k, id, h⟩ | h⟩ <;> rw [h] at hc <;>
      simp at hc
    exact hc
  refine ⟨?_, ?_, ?_⟩
  · rw [hi, newIssue_description]
    simp only [execute_render, prepare_tmpl_render]
  · intro h
    rw [prepare_alertHash, if_pos h]
  · intro h
    have he := prepare_alertHash r data
    rw [if_neg h] at he
    refine ⟨he, ?_, ?_⟩
    · rw [he, hexEncodeToString_length, sha1Sum_length]
    · rw [he]
      exact hexEncodeToString_chars _

set_option maxRecDepth 1000000

/-- C8 (witness). A run with hash template `Disk-page` whose search finds nothing creates an
issue whose description ends in the marker with the SHA-1 of `Disk-page`. -/
theorem notify_create_description_witness :
    Notify sampleHashReceiver sampleData 0 = some ⟨false, none,
        [Call.search ("project=P and description~\"alert_hash="
            ++ "59b3b9a0d66dc3db4e2c0448370667ba22abcd58" ++ "\" order by key DESC")
          searchOptions,
          Call.create (newIssue sampleHashReceiver sampleData
            (prepare sampleHashReceiver sampleData)).1]⟩ ∧
      (newIssue sampleHashReceiver sampleData
        (prepare sampleHashReceiver sampleData)).1.Fields.Description =
        "d\n\nalert_hash=59b3b9a0d66dc3db4e2c0448370667ba22abcd58" :=
  ⟨rfl,
    (notify_create_description sampleHashReceiver sampleData 0
      ⟨false, none,
        [Call.search ("project=P and description~\"alert_hash="
            ++ "59b3b9a0d66dc3db4e2c0448370667ba22abcd58" ++ "\" order by key DESC")
          searchOptions,
          Call.create (newIssue sampleHashReceiver sampleData
            (prepare sampleHashReceiver sampleData)).1]⟩
      (newIssue sampleHashReceiver sampleData (prepare sampleHashReceiver sampleData)).1
      rfl (List.mem_cons_of_mem _ (List.mem_singleton.mpr rfl))).1.trans (by decide)⟩

set_option maxRecDepth 512

/-! ## The queries of the two dedup modes -/

/-- C9. For every project, label list and label flag, when the hash passed to `search` is not
empty the query built is `project=<project> and description~"alert_hash=<hash>" order by key
DESC`, whatever the label list and the label flag are, and it is the query of the one call that
`search` makes. -/
theorem searchQuery_hash (r : Receiver) (project summary : String) (il : List String)
    (flag : Bool) (hash : String) (h : hash ≠ "") :
    searchQuery project il flag hash =
        some ("project=" ++ project ++ " and description~\"alert_hash=" ++ hash
          ++ "\" order by key DESC") ∧
      ∃ out, search r project summary il flag hash = some out ∧
        out.calls = [Call.search ("project=" ++ project ++ " and description~\"alert_hash="
          ++ hash ++ "\" order by key DESC") searchOptions] := by
  have hq : searchQuery project il flag hash =
      some ("project=" ++ project ++ " and description~\"alert_hash=" ++ hash
        ++ "\" order by key DESC") := by
    simp [searchQuery, h]
  refine ⟨hq, ?_⟩
  obtain ⟨out, ho⟩ := search_of_query r project summary il flag hash _ hq
  obtain ⟨q, hq2, hc, _⟩ := search_some r project summary il flag hash out ho
  rw [hq] at hq2
  cases hq2
  exact ⟨out, ho, hc⟩

/-- C9 (witness). The query for project `P` and hash `abc`, with labels and the label flag
set. -/
theorem searchQuery_hash_witness :
    searchQuery "P" ["ALERT", "x"] true "abc" =
      some "project=P and description~\"alert_hash=abc\" order by key DESC" :=
  (searchQuery_hash (sampleReceiver "s" "d" []) "P" "s" ["ALERT", "x"] true "abc"
    (by decide)).1

/-- C10. For every non-empty label list, in label mode (empty hash, label flag set) the query
built by `search` is `project=<project> ` followed by the clauses `and labels=<quoted label>`,
one per label in list order, separated by single spaces, followed by ` order by key DESC`. For
the labels `a` and `b` and the project `P` the query is
`project=P and labels="a" and labels="b" order by key DESC`. -/
theorem searchQuery_label_mode (project l : String) (ls : List String) :
    searchQuery project (l :: ls) true "" =
        some ("project=" ++ project ++ " "
          ++ String.intercalate " " ((l :: ls).map (fun x => "and labels=" ++ quote x))
          ++ " order by key DESC") ∧
      ((l :: ls).map (fun x => "and labels=" ++ quote x)).length = (l :: ls).length ∧
      searchQuery "P" ["a", "b"] true "" =
        some "project=P and labels=\"a\" and labels=\"b\" order by key DESC" :=
  ⟨searchQuery_labels project l ls, List.length_map _ _, by decide⟩

/-! ## The query of `search` at the edges -/

theorem searchQuery_nil (project : String) : searchQuery project [] true "" = none := by
  simp [searchQuery, searchLabelsBuffer, bufferTruncate]

/-- C11 (as amended). In label mode (empty hash, label flag set) the query-building step of
`search` fails exactly when the label list is empty: the truncation of the buffer to its length
minus one is out of bounds exactly then. With a label list that is not empty the truncation is
within bounds and the query is `project=<project> `, the clauses `and labels=<quoted label>`
separated by single spaces, and ` order by key DESC`, with no connective left dangling. -/
theorem searchQuery_label_mode_built (project : String) (il : List String) :
    (searchQuery project il true "" = none ↔ il = []) ∧
    (bufferTruncate (searchLabelsBuffer il) (((searchLabelsBuffer il).length : Int) - 1) = none
      ↔ il = []) ∧
    (il ≠ [] → searchQuery project il true "" =
      some ("project=" ++ project ++ " "
        ++ String.intercalate " " (il.map (fun x => "and labels=" ++ quote x))
        ++ " order by key DESC")) := by
  cases il with
  | nil =>
    exact ⟨⟨fun _ => rfl, fun _ => searchQuery_nil project⟩,
      ⟨fun _ => rfl, fun _ => by decide⟩, fun h => absurd rfl h⟩
  | cons l ls =>
    refine ⟨⟨fun h => ?_, fun h => by cases h⟩, ⟨fun h => ?_, fun h => by cases h⟩,
      fun _ => searchQuery_labels project l ls⟩
    · rw [searchQuery_labels] at h
      cases h
    · rw [searchLabelsBuffer_cons, bufferTruncate_space] at h
      cases h

/-- C11 (counterexample). With the empty label list the buffer is empty, the truncation is to
`-1`, it faults, and neither `searchQuery` nor `search` yields anything. -/
theorem searchQuery_empty_labels_faults :
    (((searchLabelsBuffer []).length : Int) - 1 < 0) ∧
      bufferTruncate (searchLabelsBuffer []) (((searchLabelsBuffer []).length : Int) - 1) = none ∧
      searchQuery "P" [] true "" = none ∧
      (search (sampleReceiver "s" "d" []) "P" "s" [] true "").isNone = true := by
  refine ⟨?_, ?_, ?_, ?_⟩ <;> decide

/-- C11 (witness). The query built for the one label `a`. -/
theorem searchQuery_label_mode_built_witness :
    searchQuery "P" ["a"] true "" = some ("project=" ++ "P" ++ " "
      ++ String.intercalate " " (["a"].map (fun x => "and labels=" ++ quote x))
      ++ " order by key DESC") :=
  (searchQuery_label_mode_built "P" ["a"]).2.2 (by decide)

/-- C18. Every query that `search` builds starts with `project=<project>` and ends with
` order by key DESC`; it is the query of the one call of `search`, whose options cap the results
at 2. With an empty hash and the label flag off the query is `project=<project> order by key
DESC`, and `search` does the same whatever the summary and the label list are. -/
theorem searchQuery_shape (r : Receiver) (project summary : String) (il : List String)
    (flag : Bool) (hash q : String) (h : searchQuery project il flag hash = some q) :
    (∃ mid, q = "project=" ++ project ++ mid ++ " order by key DESC") ∧
      (∃ out, search r project summary il flag hash = some out ∧
        out.calls = [Call.search q searchOptions]) ∧
      searchOptions.MaxResults = 2 ∧
      (∀ summary2 il2, searchQuery project il2 false "" =
          some ("project=" ++ project ++ " order by key DESC") ∧
        search r project summary2 il2 false "" = search r project summary il false "") := by
  refine ⟨?_, ?_, rfl, ?_⟩
  · by_cases hh : hash = ""
    · subst hh
      cases flag with
      | false =>
        simp only [searchQuery, ne_eq, not_true_eq_false, if_false, Bool.false_eq_true,
          Option.some.injEq] at h
        exact ⟨"", by rw [← h, String.append_empty]⟩
      | true =>
        cases il with
        | nil =>
          rw [searchQuery_nil] at h
          cases h
        | cons l ls =>
          rw [searchQuery_labels, Option.some.injEq] at h
          exact ⟨" " ++ String.intercalate " "
            ((l :: ls).map (fun x => "and labels=" ++ quote x)), by
              rw [← h]
              simp only [String.append_assoc]⟩
    · simp only [searchQuery, ne_eq, hh, not_false_eq_true, if_true, Option.some.injEq] at h
      exact ⟨" and description~\"alert_hash=" ++ hash ++ "\"", by
        rw [← h]
        apply String.ext
        simp [String.data_append]⟩
  · obtain ⟨out, ho⟩ := search_of_query r project summary il flag hash q h
    obtain ⟨q2, hq2, hc, _⟩ := search_some r project summary il flag hash out ho
    rw [h] at hq2
    cases hq2
    exact ⟨out, ho, hc⟩
  · intro summary2 il2
    constructor
    · simp [searchQuery]
    · simp [search, searchQuery]

/-- C18 (witness). The query built for project `P` without hash and without labels. -/
theorem searchQuery_shape_witness :
    searchQuery "P" ["a"] false "" = some "project=P order by key DESC" ∧
      ∃ mid, "project=P order by key DESC" = "project=" ++ "P" ++ mid ++ " order by key DESC" :=
  ⟨rfl, (searchQuery_shape (sampleReceiver "s" "d" []) "P" "s" ["a"] false ""
    "project=P order by key DESC" rfl).1⟩

theorem quote_plain (s : String) (h : ∀ c ∈ s.data, quoteChar c = [c]) :
    quote s = "\"" ++ s ++ "\"" := by
  have hf : ∀ l : List Char, (∀ c ∈ l, quoteChar c = [c]) → l.flatMap quoteChar = l := by
    intro l
    induction l with
    | nil => intro _; rfl
    | cons a rest ih =>
      intro hl
      rw [List.flatMap_cons, hl a (List.mem_cons_self _ _),
        ih (fun c hc => hl c (List.mem_cons_of_mem _ hc))]
      rfl
  apply String.ext
  simp only [quote, String.data_append, hf s.data h]
  rfl

theorem quoteChar_plain (c : Char) (h : plainChar c = true) : quoteChar c = [c] := by
  simp only [plainChar, Bool.and_eq_true, bne_iff_ne, ne_eq] at h
  obtain ⟨⟨hp, hq⟩, hb⟩ := h
  simp [quoteChar, hq, hb, hp]

set_option maxRecDepth 100000

/-- The `%q` verb on sample texts: a quote and a backslash are escaped, a line feed gets its Go
escape, the no-break space U+00A0 and the zero-width space U+200B are written with `\u`, a
private-use character beyond U+FFFF with `\U`, and printable characters beyond ASCII are written
as they are. -/
theorem quote_samples :
    quote "Re\"open" = "\"Re\\\"open\"" ∧
      quote "C:\\" = "\"C:\\\\\"" ∧
      quote "a\nb" = "\"a\\nb\"" ∧
      quote ⟨['c', Char.ofNat 160, 'd']⟩ = "\"c\\u00a0d\"" ∧
      quote ⟨['c', Char.ofNat 8203, 'd']⟩ = "\"c\\u200bd\"" ∧
      quote ⟨[Char.ofNat 1048576]⟩ = "\"\\U00100000\"" ∧
      quote ⟨[Char.ofNat 127]⟩ = "\"\\x7f\"" ∧
      quote ⟨['d', Char.ofNat 233, Char.ofNat 128512]⟩ = ⟨[Char.ofNat 34, 'd', Char.ofNat 233,
        Char.ofNat 128512, Char.ofNat 34]⟩ := by
  refine ⟨?_, ?_, ?_, ?_, ?_, ?_, ?_, ?_⟩ <;> decide

set_option maxRecDepth 512

theorem quote_plainChars (s : String) (h : ∀ c ∈ s.data, plainChar c = true) :
    quote s = "\"" ++ s ++ "\"" :=
  quote_plain s (fun c hc => quoteChar_plain c (h c hc))

/-- C19. When label attachment is on, the label list that `Notify` passes to `search` starts
with `ALERT`, so the buffer written by the clause loop has length at least 1, the truncation by
one character is not below zero and does not fault, the query of the run is built, and `Notify`
returns. -/
theorem notify_label_mode_query (r : Receiver) (data : Data) (hl : r.conf.AddLabels = true) :
    (∃ rest, (prepare r data).issueLabel = "ALERT" :: rest) ∧
      1 ≤ (searchLabelsBuffer (prepare r data).issueLabel).length ∧
      0 ≤ ((searchLabelsBuffer (prepare r data).issueLabel).length : Int) - 1 ∧
      (∃ s, bufferTruncate (searchLabelsBuffer (prepare r data).issueLabel)
        (((searchLabelsBuffer (prepare r data).issueLabel).length : Int) - 1) = some s) ∧
      (∃ q, notifyQuery r data = some q) ∧
      ∀ now, ∃ o, Notify r data now = some o := by
  have hi := prepare_issueLabel r data hl
  have hb := searchLabelsBuffer_cons "ALERT" (toIssueLabel data.GroupLabels)
  have hlen : 1 ≤ (searchLabelsBuffer (prepare r data).issueLabel).length := by
    rw [hi, hb, String.length_append]
    exact Nat.le_add_left _ _
  refine ⟨⟨_, hi⟩, hlen, by omega, ?_, ?_, ?_⟩
  · rw [hi, hb, bufferTruncate_space]
    exact ⟨_, rfl⟩
  · obtain ⟨_, q, _, hq, _⟩ := searched_some r data
    exact ⟨q, hq⟩
  · intro now
    obtain ⟨o, ho, _⟩ := notify_calls r data now
    exact ⟨o, ho⟩

/-- C19 (witness). The label list and the query of a run over the sample receiver. -/
theorem notify_label_mode_query_witness :
    (prepare (sampleReceiver "s" "d" []) sampleData).issueLabel = ["ALERT", "Disk", "page"] ∧
      notifyQuery (sampleReceiver "s" "d" []) sampleData =
        some "project=P and labels=\"ALERT\" and labels=\"Disk\" and labels=\"page\" order by key DESC" ∧
      ∃ q, notifyQuery (sampleReceiver "s" "d" []) sampleData = some q :=
  ⟨by decide, by decide, (notify_label_mode_query (sampleReceiver "s" "d" []) sampleData rfl).2.2.2.2.1⟩

/-! ## The retry flag -/

theorem handleJiraError_err (api : String) (resp : Option Response) (err : String) :
    (handleJiraError api resp err).2 ≠ none := by
  unfold handleJiraError
  cases resp with
  | none => simp
  | some rp => by_cases h : rp.StatusCode.tdiv 100 = 2 <;> simp [h]

theorem handleJiraError_true (api : String) (resp : Option Response) (err : String)
    (h : (handleJiraError api resp err).1 = true) :
    ∃ rp, resp = some rp ∧ (rp.StatusCode = 500 ∨ rp.StatusCode = 503) := by
  unfold handleJiraError at h
  cases resp with
  | none => simp at h
  | some rp =>
    refine ⟨rp, rfl, ?_⟩
    by_cases h2 : rp.StatusCode.tdiv 100 = 2
    · simp [h2] at h
    · simpa [h2] using h

theorem retrySound_quiet (cl : Client) (e : Option String) (calls : List Call) :
    RetrySound cl ⟨false, e, calls⟩ := by
  constructor
  · intro h
    cases h
  · intro _
    rfl

/-- An outcome that comes from `handleJiraError` on the failed last call. -/
theorem retrySound_failed (cl : Client) (api err : String) (resp : Option Response)
    (pre : List Call) (c : Call) (hc : replyFailure cl c = some resp) :
    RetrySound cl ⟨(handleJiraError api resp err).1, (handleJiraError api resp err).2,
      pre ++ [c]⟩ := by
  constructor
  · intro h
    obtain ⟨rp, hrp, hs⟩ := handleJiraError_true api resp err h
    refine ⟨handleJiraError_err api resp err, c, rp, by simp, ?_, hs⟩
    rw [hc, hrp]
  · intro h
    have := h c (by simp)
    rw [hc] at this
    cases this

theorem retrySound_prepend (cl : Client) (o : Outcome) (pre : List Call)
    (h : RetrySound cl o) : RetrySound cl ⟨o.retry, o.err, pre ++ o.calls⟩ := by
  obtain ⟨h1, h2⟩ := h
  constructor
  · intro hr
    obtain ⟨he, c, resp, hl, hf, hs⟩ := h1 hr
    refine ⟨he, c, resp, ?_, hf, hs⟩
    show (pre ++ o.calls).getLast? = some c
    rw [List.getLast?_append, hl]
    rfl
  · intro hall
    exact h2 (fun c hc => hall c (List.mem_append_right _ hc))

theorem reopenLoop_retrySound (r : Receiver) (issueKey : String) (ts : List Transition) :
    RetrySound r.client (reopenLoop r issueKey ts) := by
  induction ts with
  | nil => exact retrySound_quiet _ _ _
  | cons t rest ih =>
    unfold reopenLoop
    by_cases hn : t.Name = r.conf.ReopenState
    · simp only [hn, if_true]
      cases hd : r.client.DoTransition issueKey t.ID with
      | fail resp err =>
        exact retrySound_failed r.client "Issue.DoTransition" err resp []
          (Call.doTransition issueKey t.ID) (by simp [replyFailure, hd])
      | ok u => exact retrySound_quiet _ _ _
    · simp only [hn, if_false]
      exact ih

theorem reopen_retrySound (r : Receiver) (issueKey : String) :
    RetrySound r.client (reopen r issueKey) := by
  unfold reopen
  cases hg : r.client.GetTransitions issueKey with
  | fail resp err =>
    exact retrySound_failed r.client "Issue.GetTransitions" err resp []
      (Call.getTransitions issueKey) (by simp [replyFailure, hg])
  | ok ts =>
    exact retrySound_prepend r.client (reopenLoop r issueKey ts) [Call.getTransitions issueKey]
      (reopenLoop_retrySound r issueKey ts)

theorem create_retrySound (r : Receiver) (issue : Issue) :
    RetrySound r.client (create r issue) := by
  unfold create
  cases hc : r.client.Create issue with
  | fail resp err =>
    exact retrySound_failed r.client "Issue.Create" err resp [] (Call.create issue)
      (by simp [replyFailure, hc])
  | ok u => exact retrySound_quiet _ _ _

theorem createNew_retrySound (r : Receiver) (data : Data) (p : Prepared) :
    RetrySound r.client (createNew r data p) := by
  cases he : (newIssue r data p).2.err with
  | some e =>
    simp only [createNew, he]
    exact retrySound_quiet _ _ _
  | none =>
    simp only [createNew, he]
    exact create_retrySound r _

theorem existingIssue_retrySound (r : Receiver) (issue : Issue) (now : Int) (o : Outcome)
    (h : existingIssue r issue now = some o) : RetrySound r.client o := by
  rcases existingIssue_cases r issue now with h2 | h2 | h2 <;> rw [h2] at h
  · cases h
  · cases h
    exact retrySound_quiet _ _ _
  · cases h
    exact reopen_retrySound r issue.Key

theorem search_retrySound (r : Receiver) (project summary : String) (il : List String)
    (flag : Bool) (hash : String) (out : SearchOutcome)
    (h : search r project summary il flag hash = some out) :
    RetrySound r.client ⟨out.retry, out.err, out.calls⟩ := by
  unfold search at h
  cases hq : searchQuery project il flag hash with
  | none => simp [hq] at h
  | some q =>
    simp only [hq] at h
    cases hc : r.client.Search q searchOptions with
    | fail resp err =>
      simp only [hc, Option.some.injEq] at h
      subst h
      exact retrySound_failed r.client "Issue.Search" err resp []
        (Call.search q searchOptions) (by simp [replyFailure, hc])
    | ok found =>
      cases found with
      | nil =>
        simp only [hc, Option.some.injEq] at h
        subst h
        exact retrySound_quiet _ _ _
      | cons a rest =>
        simp only [hc, Option.some.injEq] at h
        subst h
        exact retrySound_quiet _ _ _

theorem notify_retrySound (r : Receiver) (data : Data) (now : Int) (o : Outcome)
    (h : Notify r data now = some o) : RetrySound r.client o := by
  cases hp : (prepare r data).projectErr with
  | some e =>
    simp only [Notify, hp, Option.some.injEq] at h
    subst h
    exact retrySound_quiet _ _ _
  | none =>
    cases hs : searched r data with
    | none => simp [Notify, hp, hs] at h
    | some out =>
      have hso := search_retrySound r (prepare r data).project (prepare r data).summary
        (prepare r data).issueLabel r.conf.AddLabels (prepare r data).alertHash out hs
      cases he : out.err with
      | some e =>
        simp only [Notify, hp, hs, he, Option.some.injEq] at h
        subst h
        rw [he] at hso
        exact hso
      | none =>
        cases hi : out.issue with
        | none =>
          simp only [Notify, hp, hs, he, hi, Option.some.injEq] at h
          subst h
          exact retrySound_prepend r.client _ out.calls (createNew_retrySound r data _)
        | some issue =>
          cases hx : existingIssue r issue now with
          | none =>
            simp only [Notify, hp, hs, he, hi, hx, Option.some.injEq] at h
            subst h
            exact retrySound_prepend r.client _ out.calls (createNew_retrySound r data _)
          | some o2 =>
            simp only [Notify, hp, hs, he, hi, hx, Option.some.injEq] at h
            subst h
            exact retrySound_prepend r.client _ out.calls
              (existingIssue_retrySound r issue now o2 hx)

/-- C20. In every run of `Notify`: when the returned retry flag is set, the returned error is
not `nil` and the last call of the run was answered with an error and a response of status 500
or 503; when no call of the run was answered with an error the flag is not set; when the
returned error is `nil` the flag is not set; and `handleJiraError` never returns a `nil`
error. -/
theorem notify_retry_backed (r : Receiver) (data : Data) (now : Int) (o : Outcome)
    (h : Notify r data now = some o) :
    (o.retry = true → o.err ≠ none ∧ ∃ c resp, o.calls.getLast? = some c ∧
      replyFailure r.client c = some (some resp) ∧
      (resp.StatusCode = 500 ∨ resp.StatusCode = 503)) ∧
    ((∀ c ∈ o.calls, replyFailure r.client c = none) → o.retry = false) ∧
    (o.err = none → o.retry = false) ∧
    (∀ api resp err, (handleJiraError api resp err).2 ≠ none) := by
  obtain ⟨h1, h2⟩ := notify_retrySound r data now o h
  refine ⟨h1, h2, ?_, handleJiraError_err⟩
  intro he
  cases hr : o.retry with
  | false => rfl
  | true => exact absurd he (h1 hr).1

/-- C20 (witness). A run whose search is answered with status 503 returns the retry flag with an
error. -/
theorem notify_retry_backed_witness :
    (Notify (sampleDownReceiver 503) sampleData 0).map (fun o => (o.retry, o.err.isSome)) =
        some (true, true) ∧
      ∃ c resp, [Call.search
          "project=P and labels=\"ALERT\" and labels=\"Disk\" and labels=\"page\" order by key DESC"
          searchOptions].getLast? = some c ∧
        replyFailure (sampleDownReceiver 503).client c = some (some resp) ∧
        (resp.StatusCode = 500 ∨ resp.StatusCode = 503) :=
  ⟨by decide,
    ((notify_retry_backed (sampleDownReceiver 503) sampleData 0
      ⟨true, some ("JIRA request http://jira/search returned status status, body "
          ++ quote "body"),
        [Call.search
          "project=P and labels=\"ALERT\" and labels=\"Disk\" and labels=\"page\" order by key DESC"
          searchOptions]⟩ rfl).1 rfl).2⟩

/-! ## `reopen` -/

theorem first_with_name (state : String) (ts : List Transition)
    (h : ∃ t ∈ ts, t.Name = state) :
    ∃ pre t post, ts = pre ++ t :: post ∧ (∀ u ∈ pre, u.Name ≠ state) ∧ t.Name = state := by
  induction ts with
  | nil =>
    obtain ⟨t, ht, _⟩ := h
    cases ht
  | cons a rest ih =>
    by_cases ha : a.Name = state
    · exact ⟨[], a, rest, rfl, by simp, ha⟩
    · obtain ⟨t, ht, hn⟩ := h
      have hrest : ∃ t ∈ rest, t.Name = state := by
        rcases List.mem_cons.mp ht with h1 | h1
        · subst h1
          exact absurd hn ha
        · exact ⟨t, h1, hn⟩
      obtain ⟨pre, t2, post, he, hpre, ht2⟩ := ih hrest
      refine ⟨a :: pre, t2, post, by rw [he]; rfl, ?_, ht2⟩
      intro u hu
      rcases List.mem_cons.mp hu with h1 | h1
      · subst h1
        exact ha
      · exact hpre u h1

theorem reopenLoop_first (r : Receiver) (issueKey : String) (pre : List Transition)
    (t : Transition) (post : List Transition)
    (hpre : ∀ u ∈ pre, u.Name ≠ r.conf.ReopenState) (ht : t.Name = r.conf.ReopenState) :
    (reopenLoop r issueKey (pre ++ t :: post)).calls = [Call.doTransition issueKey t.ID] ∧
      (∀ u, r.client.DoTransition issueKey t.ID = Reply.ok u →
        (reopenLoop r issueKey (pre ++ t :: post)).retry = false ∧
        (reopenLoop r issueKey (pre ++ t :: post)).err = none) := by
  induction pre with
  | nil =>
    simp only [List.nil_append, reopenLoop, ht, if_true]
    cases hd : r.client.DoTransition issueKey t.ID with
    | fail resp err => exact ⟨rfl, fun u hu => by cases hu⟩
    | ok v => exact ⟨rfl, fun _ _ => ⟨rfl, rfl⟩⟩
  | cons a rest ih =>
    have ha : a.Name ≠ r.conf.ReopenState := hpre a (List.mem_cons_self _ _)
    simp only [List.cons_append, reopenLoop, ha, if_false]
    exact ih (fun u hu => hpre u (List.mem_cons_of_mem _ hu))

theorem reopenLoop_none (r : Receiver) (issueKey : String) (ts : List Transition)
    (hall : ∀ t ∈ ts, t.Name ≠ r.conf.ReopenState) :
    reopenLoop r issueKey ts = ⟨false, some ("JIRA state " ++ quote r.conf.ReopenState
      ++ " does not exist or no transition possible for " ++ issueKey), []⟩ := by
  induction ts with
  | nil => rfl
  | cons a rest ih =>
    unfold reopenLoop
    rw [if_neg (hall a (List.mem_cons_self _ _))]
    exact ih (fun t ht => hall t (List.mem_cons_of_mem _ ht))

/-- C12 (as amended). For the list of transitions returned for an issue key: when some
transition has the name of the configured reopen state, `reopen` executes exactly one transition,
the first one of the list with that name, right after the listing, and returns no retry and no
error when the execution succeeds; when no transition has that name, `reopen` executes no
transition and returns no retry and an error whose message holds the reopen state as the `%q`
verb writes it and then the issue key; when every character of the name is printable and neither
a double quote nor a backslash, that is the name itself between double quotes. -/
theorem reopen_transition (r : Receiver) (issueKey : String) (ts : List Transition)
    (hg : r.client.GetTransitions issueKey = Reply.ok ts) :
    ((∃ t ∈ ts, t.Name = r.conf.ReopenState) →
      ∃ pre t post, ts = pre ++ t :: post ∧ (∀ u ∈ pre, u.Name ≠ r.conf.ReopenState) ∧
        t.Name = r.conf.ReopenState ∧
        (reopen r issueKey).calls =
          [Call.getTransitions issueKey, Call.doTransition issueKey t.ID] ∧
        (∀ u, r.client.DoTransition issueKey t.ID = Reply.ok u →
          (reopen r issueKey).retry = false ∧ (reopen r issueKey).err = none)) ∧
    ((∀ t ∈ ts, t.Name ≠ r.conf.ReopenState) →
      (reopen r issueKey).calls = [Call.getTransitions issueKey] ∧
      (reopen r issueKey).retry = false ∧
      (reopen r issueKey).err = some ("JIRA state " ++ quote r.conf.ReopenState
        ++ " does not exist or no transition possible for " ++ issueKey) ∧
      ((∀ c ∈ r.conf.ReopenState.data, plainChar c = true) →
        (reopen r issueKey).err = some ("JIRA state " ++ ("\"" ++ r.conf.ReopenState ++ "\"")
          ++ " does not exist or no transition possible for " ++ issueKey))) := by
  have hre : reopen r issueKey = ⟨(reopenLoop r issueKey ts).retry,
      (reopenLoop r issueKey ts).err,
      Call.getTransitions issueKey :: (reopenLoop r issueKey ts).calls⟩ := by
    simp only [reopen, hg]
  constructor
  · intro hex
    obtain ⟨pre, t, post, he, hpre, ht⟩ := first_with_name r.conf.ReopenState ts hex
    obtain ⟨hc, hok⟩ := reopenLoop_first r issueKey pre t post hpre ht
    rw [← he] at hc hok
    refine ⟨pre, t, post, he, hpre, ht, ?_, ?_⟩
    · rw [hre, hc]
    · intro u hu
      rw [hre]
      exact hok u hu
  · intro hall
    rw [hre, reopenLoop_none r issueKey ts hall]
    refine ⟨rfl, rfl, rfl, ?_⟩
    intro hplain
    rw [quote_plainChars r.conf.ReopenState hplain]

/-- C12 (counterexample). The configured reopen state is `Re"open` and no transition has that
name: `reopen` returns no retry and an error whose message has a backslash before the inner
quote, so the state name does not occur in the message, while the issue key does. -/
theorem reopen_message_quoted_state :
    (∀ t ∈ [(⟨"7", "Reopen"⟩ : Transition), ⟨"8", "To Do"⟩],
        t.Name ≠ sampleQuotedStateReceiver.conf.ReopenState) ∧
      (reopen sampleQuotedStateReceiver "K-1").retry = false ∧
      (reopen sampleQuotedStateReceiver "K-1").err =
        some "JIRA state \"Re\\\"open\" does not exist or no transition possible for K-1" ∧
      containsText "JIRA state \"Re\\\"open\" does not exist or no transition possible for K-1"
        sampleQuotedStateReceiver.conf.ReopenState = false ∧
      containsText "JIRA state \"Re\\\"open\" does not exist or no transition possible for K-1"
        "K-1" = true := by
  refine ⟨?_, ?_, ?_, ?_, ?_⟩ <;> decide

/-- C12 (witness). On the sample tracker, whose transitions are `Reopen` and `To Do`, the
reopen state `To Do` selects the transition `8`, and the reopen state `Done` gives the message
with `Done` between double quotes. -/
theorem reopen_transition_witness :
    (reopen (sampleReceiver "s" "d" []) "K-1").calls =
        [Call.getTransitions "K-1", Call.doTransition "K-1" "8"] ∧
      (reopen (sampleReceiver "s" "d" []) "K-1").retry = false ∧
      (reopen (sampleReceiver "s" "d" []) "K-1").err = none ∧
      (reopen ⟨⟨"P", "Bug", "s", "d", "", [], [], "", true, false, "", "Done", 10⟩,
          sampleTemplate, sampleClient []⟩ "K-1").err =
        some ("JIRA state " ++ ("\"" ++ "Done" ++ "\"")
          ++ " does not exist or no transition possible for " ++ "K-1") :=
  ⟨(match (reopen_transition (sampleReceiver "s" "d" []) "K-1"
        [⟨"7", "Reopen"⟩, ⟨"8", "To Do"⟩] rfl).1 ⟨⟨"8", "To Do"⟩, by simp, rfl⟩ with
      | ⟨_, _, _, _, _, _, _, _⟩ => rfl),
    rfl, rfl,
    ((reopen_transition ⟨⟨"P", "Bug", "s", "d", "", [], [], "", true, false, "", "Done", 10⟩,
        sampleTemplate, sampleClient []⟩ "K-1" [⟨"7", "Reopen"⟩, ⟨"8", "To Do"⟩] rfl).2
      (by decide)).2.2.2 (by decide)⟩

/-! ## `deepCopyWithTemplate` -/

theorem recordErrors_append (render : String → Data → String × Option String) (data : Data)
    (err : Option String) (xs ys : List String) :
    recordErrors render data err (xs ++ ys) =
      recordErrors render data (recordErrors render data err xs) ys := by
  induction xs generalizing err with
  | nil => cases err <;> rfl
  | cons x rest ih =>
    cases err with
    | none =>
      show recordErrors render data (render x data).2 (rest ++ ys) = _
      exact ih _
    | some e =>
      show recordErrors render data (some e) (rest ++ ys) = _
      exact ih _

theorem recordErrors_some (render : String → Data → String × Option String) (data : Data)
    (e : String) (xs : List String) : recordErrors render data (some e) xs = some e := by
  induction xs with
  | nil => rfl
  | cons x rest ih => simp only [recordErrors, ih]

theorem execute_state (t : Template) (text : String) (data : Data) :
    (t.Execute text data).2 = ⟨t.render, recordErrors t.render data t.err [text]⟩ := by
  cases h : t.err <;> simp [Template.Execute, recordErrors, h]

/-- The template engine after a walk: its rendering is unchanged and its error state has
recorded the renderings of the texts of the walk. -/
theorem deepCopy_state :
    (∀ (v : Value) (t : Template) (d : Data),
      (deepCopyWithTemplate v t d).2 = ⟨t.render, recordErrors t.render d t.err (walkTexts v)⟩) ∧
    (∀ (es conv : List (Key × Value)) (t : Template) (d : Data),
      (deepCopyMap es conv t d).2 =
        ⟨t.render, recordErrors t.render d t.err (walkTextsMap es)⟩) ∧
    (∀ (xs : List Value) (t : Template) (d : Data),
      (deepCopySeq xs t d).2 = ⟨t.render, recordErrors t.render d t.err (walkTextsSeq xs)⟩) := by
  apply deepCopyWithTemplate.mutual_induct
  · intro t d; simp [deepCopyWithTemplate, walkTexts, recordErrors]
  · intro s t d; simp [deepCopyWithTemplate, walkTexts, execute_state]
  · intro xs t d ih; simp [deepCopyWithTemplate, walkTexts, ih]
  · intro es t d ih; simp [deepCopyWithTemplate, walkTexts, ih]
  · intro b t d; simp [deepCopyWithTemplate, walkTexts, recordErrors]
  · intro i t d; simp [deepCopyWithTemplate, walkTexts, recordErrors]
  · intro t d; simp [deepCopySeq, walkTextsSeq, recordErrors]
  · intro x xs t d r ih1 ih2
    simp only [deepCopySeq, walkTextsSeq, recordErrors_append]
    rw [ih2]
    simp only [r, ih1]
  · intro conv t d; simp [deepCopyMap, walkTextsMap, recordErrors]
  · intro k v rest conv t d rk rv ih1 ih2
    have h1 : rv.2 = ⟨t.render,
        recordErrors t.render d (recordErrors t.render d t.err [k]) (walkTexts v)⟩ := by
      show (deepCopyWithTemplate v rk.2 d).2 = _
      rw [ih1]
      simp only [rk, execute_state]
    simp only [deepCopyMap, walkTextsMap]
    rw [ih2, h1]
    rw [show k :: (walkTexts v ++ walkTextsMap rest) = [k] ++ (walkTexts v ++ walkTextsMap rest)
      from rfl, recordErrors_append, recordErrors_append]
  · intro k v rest conv t d hk ih
    cases k with
    | str s => exact absurd rfl (hk s)
    | int i => simp only [deepCopyMap, walkTextsMap, ih]
    | bool b => simp only [deepCopyMap, walkTextsMap, ih]

theorem deepCopy_render (v : Value) (t : Template) (d : Data) :
    (deepCopyWithTemplate v t d).2.render = t.render := by
  rw [deepCopy_state.1]

/-- The value that a walk returns does not depend on the error state of the template engine. -/
theorem deepCopy_value :
    (∀ (v : Value) (t : Template) (d : Data), ∀ t2 : Template, t2.render = t.render →
      (deepCopyWithTemplate v t2 d).1 = (deepCopyWithTemplate v t d).1) ∧
    (∀ (es conv : List (Key × Value)) (t : Template) (d : Data), ∀ t2 : Template,
      t2.render = t.render → (deepCopyMap es conv t2 d).1 = (deepCopyMap es conv t d).1) ∧
    (∀ (xs : List Value) (t : Template) (d : Data), ∀ t2 : Template, t2.render = t.render →
      (deepCopySeq xs t2 d).1 = (deepCopySeq xs t d).1) := by
  apply deepCopyWithTemplate.mutual_induct
  · intro t d t2 _; simp [deepCopyWithTemplate]
  · intro s t d t2 h; simp [deepCopyWithTemplate, Template.Execute, h]
  · intro xs t d ih t2 h; simp [deepCopyWithTemplate, ih t2 h]
  · intro es t d ih t2 h; simp [deepCopyWithTemplate, ih t2 h]
  · intro b t d t2 _; simp [deepCopyWithTemplate]
  · intro i t d t2 _; simp [deepCopyWithTemplate]
  · intro t d t2 _; simp [deepCopySeq]
  · intro x xs t d r ih1 ih2 t2 h
    simp only [deepCopySeq]
    rw [ih1 t2 h, ih2 (deepCopyWithTemplate x t2 d).2 (by
      rw [deepCopy_render, h]
      exact (deepCopy_render x t d).symm)]
  · intro conv t d t2 _; simp [deepCopyMap]
  · intro k v rest conv t d rk rv ih1 ih2 t2 h
    have hk : (t2.Execute k d).1 = rk.1 := by
      simp only [rk, Template.Execute, h]
    have hkr : (t2.Execute k d).2.render = rk.2.render := by
      simp only [rk, Template.Execute, h]
    have hv : (deepCopyWithTemplate v (t2.Execute k d).2 d).1 = rv.1 := ih1 _ hkr
    simp only [deepCopyMap]
    rw [hk, hv]
    exact ih2 _ (by
      rw [deepCopy_render, hkr]
      exact (deepCopy_render v rk.2 d).symm)
  · intro k v rest conv t d hk ih t2 h
    cases k with
    | str s => exact absurd rfl (hk s)
    | int i => simp only [deepCopyMap, ih t2 h]
    | bool b => simp only [deepCopyMap, ih t2 h]

theorem deepCopySeq_value (xs : List Value) (t : Template) (d : Data) :
    (deepCopySeq xs t d).1 = xs.map (fun x => (deepCopyWithTemplate x t d).1) := by
  induction xs generalizing t with
  | nil => rfl
  | cons x rest ih =>
    simp only [deepCopySeq, List.map_cons, ih]
    congr 1
    apply List.map_congr_left
    intro y _
    exact deepCopy_value.1 y t d _ (deepCopy_render x t d)

theorem deepCopyMap_value (es conv : List (Key × Value)) (t : Template) (d : Data) :
    (deepCopyMap es conv t d).1 =
      (stringEntries es).foldl
        (fun m kv => mapSet m (t.render kv.1 d).1 (deepCopyWithTemplate kv.2 t d).1) conv := by
  induction es generalizing conv t with
  | nil => rfl
  | cons e rest ih =>
    obtain ⟨k, v⟩ := e
    cases k with
    | str s =>
      simp only [deepCopyMap, stringEntries, List.foldl_cons]
      have hr : (deepCopyWithTemplate v (t.Execute s d).2 d).2.render = t.render := by
        rw [deepCopy_render]
        rfl
      rw [ih, hr, deepCopy_value.1 v t d (t.Execute s d).2 rfl]
      have hfun : (fun (m : List (Key × Value)) (kv : String × Value) =>
          mapSet m (t.render kv.1 d).1
            (deepCopyWithTemplate kv.2
              (deepCopyWithTemplate v (t.Execute s d).2 d).2 d).1) =
          (fun m kv => mapSet m (t.render kv.1 d).1 (deepCopyWithTemplate kv.2 t d).1) := by
        funext m kv
        rw [deepCopy_value.1 kv.2 t d _ hr]
      rw [hfun]
      rfl
    | int i => simp only [deepCopyMap, stringEntries, ih]
    | bool b => simp only [deepCopyMap, stringEntries, ih]

theorem mapSet_mem (m : List (Key × Value)) (k : String) (v : Value) (e : Key × Value)
    (h : e ∈ mapSet m k v) : e ∈ m ∨ e = (Key.str k, v) := by
  induction m with
  | nil =>
    simp only [mapSet, List.mem_singleton] at h
    exact Or.inr h
  | cons a rest ih =>
    obtain ⟨k2, v2⟩ := a
    unfold mapSet at h
    by_cases hk : k2 = Key.str k
    · rw [if_pos hk] at h
      rcases List.mem_cons.mp h with h1 | h1
      · right
        rw [h1, hk]
      · left
        exact List.mem_cons_of_mem _ h1
    · rw [if_neg hk] at h
      rcases List.mem_cons.mp h with h1 | h1
      · left
        rw [h1]
        exact List.mem_cons_self _ _
      · rcases ih h1 with h2 | h2
        · left
          exact List.mem_cons_of_mem _ h2
        · right
          exact h2

theorem mapSet_new (m : List (Key × Value)) (k : String) (v : Value)
    (h : ∀ e ∈ m, e.1 ≠ Key.str k) : mapSet m k v = m ++ [(Key.str k, v)] := by
  induction m with
  | nil => rfl
  | cons a rest ih =>
    obtain ⟨k2, v2⟩ := a
    have hk : k2 ≠ Key.str k := h (k2, v2) (List.mem_cons_self _ _)
    simp only [mapSet, hk, if_false, List.cons_append]
    rw [ih (fun e he => h e (List.mem_cons_of_mem _ he))]

theorem foldl_mapSet_mem (l : List (String × Value)) (conv : List (Key × Value))
    (e : Key × Value) (h : e ∈ l.foldl (fun m p => mapSet m p.1 p.2) conv) :
    e ∈ conv ∨ ∃ p ∈ l, e = (Key.str p.1, p.2) := by
  induction l generalizing conv with
  | nil => exact Or.inl h
  | cons a rest ih =>
    rcases ih _ h with h1 | ⟨p, hp, he⟩
    · rcases mapSet_mem conv a.1 a.2 e h1 with h2 | h2
      · exact Or.inl h2
      · exact Or.inr ⟨a, List.mem_cons_self _ _, h2⟩
    · exact Or.inr ⟨p, List.mem_cons_of_mem _ hp, he⟩

theorem foldl_mapSet_nodup (l : List (String × Value)) (conv : List (Key × Value))
    (hn : (l.map Prod.fst).Nodup) (hc : ∀ e ∈ conv, ∀ p ∈ l, e.1 ≠ Key.str p.1) :
    l.foldl (fun m p => mapSet m p.1 p.2) conv = conv ++ l.map (fun p => (Key.str p.1, p.2)) := by
  induction l generalizing conv with
  | nil => simp
  | cons a rest ih =>
    simp only [List.map_cons, List.nodup_cons] at hn
    simp only [List.foldl_cons, List.map_cons]
    rw [mapSet_new conv a.1 a.2 (fun e he => hc e he a (List.mem_cons_self _ _)), ih _ hn.2]
    · simp
    · intro e he p hp
      rcases List.mem_append.mp he with h1 | h1
      · exact hc e h1 p (List.mem_cons_of_mem _ hp)
      · simp only [List.mem_singleton] at h1
        rw [h1]
        intro heq
        have : a.1 = p.1 := by
          simpa using heq
        exact hn.1 (this ▸ List.mem_map_of_mem Prod.fst hp)

theorem deepCopy_map_value (entries : List (Key × Value)) (t : Template) (d : Data) :
    (deepCopyWithTemplate (Value.map entries) t d).1 =
      Value.map (((stringEntries entries).map
        (fun kv => ((t.render kv.1 d).1, (deepCopyWithTemplate kv.2 t d).1))).foldl
          (fun m p => mapSet m p.1 p.2) []) := by
  simp only [deepCopyWithTemplate, deepCopyMap_value, List.foldl_map]

/-- C13 (as amended). The copy of a mapping is a mapping with string keys, each entry of which
is the rendered key and the copied value of an entry of the input with a string key: no entry
comes from a key that is not a string. When the renderings of the string keys of the input are
pairwise different, the copy has exactly one entry per string key of the input, the rendered key
with the copied value. A mapping with one key that is not a string and one string key yields
exactly one entry, under the rendered string key. -/
theorem deepCopy_map (entries : List (Key × Value)) (t : Template) (d : Data) :
    (∃ res, (deepCopyWithTemplate (Value.map entries) t d).1 = Value.map res ∧
      ∀ e ∈ res, ∃ kv ∈ stringEntries entries,
        e = (Key.str (t.render kv.1 d).1, (deepCopyWithTemplate kv.2 t d).1)) ∧
    (((stringEntries entries).map (fun kv => (t.render kv.1 d).1)).Nodup →
      (deepCopyWithTemplate (Value.map entries) t d).1 =
        Value.map ((stringEntries entries).map
          (fun kv => (Key.str (t.render kv.1 d).1, (deepCopyWithTemplate kv.2 t d).1)))) ∧
    (∀ (k : Key) (v : Value) (s : String) (w : Value), (∀ x, k ≠ Key.str x) →
      (deepCopyWithTemplate (Value.map [(k, v), (Key.str s, w)]) t d).1 =
          Value.map [(Key.str (t.render s d).1, (deepCopyWithTemplate w t d).1)] ∧
        (deepCopyWithTemplate (Value.map [(Key.str s, w), (k, v)]) t d).1 =
          Value.map [(Key.str (t.render s d).1, (deepCopyWithTemplate w t d).1)]) := by
  refine ⟨⟨_, deepCopy_map_value entries t d, ?_⟩, ?_, ?_⟩
  · intro e he
    rcases foldl_mapSet_mem _ [] e he with h | ⟨p, hp, hpe⟩
    · cases h
    · obtain ⟨kv, hkv, hkp⟩ := List.mem_map.mp hp
      exact ⟨kv, hkv, by rw [hpe, ← hkp]⟩
  · intro hn
    rw [deepCopy_map_value, foldl_mapSet_nodup _ [] (by simpa [List.map_map] using hn)
      (fun e he => by cases he)]
    simp [List.map_map]
  · intro k v s w hk
    have h1 : stringEntries [(k, v), (Key.str s, w)] = [(s, w)] := by
      cases k with
      | str x => exact absurd rfl (hk x)
      | int i => rfl
      | bool b => rfl
    have h2 : stringEntries [(Key.str s, w), (k, v)] = [(s, w)] := by
      cases k with
      | str x => exact absurd rfl (hk x)
      | int i => rfl
      | bool b => rfl
    constructor
    · rw [deepCopy_map_value, h1]
      rfl
    · rw [deepCopy_map_value, h2]
      rfl

/-- C13 (counterexample). The string keys `$receiver` and `r1` both render to `r1`: the copy
has the single entry of the key visited last, and does not map the rendering of `$receiver` to
the copy of its value. -/
theorem deepCopy_map_collision :
    (sampleReceiverTemplate.render "$receiver" sampleData).1 = "r1" ∧
      (deepCopyWithTemplate (Value.int 1) sampleReceiverTemplate sampleData).1 = Value.int 1 ∧
      (deepCopyWithTemplate (Value.map [(Key.str "$receiver", Value.int 1),
          (Key.str "r1", Value.int 2)]) sampleReceiverTemplate sampleData).1 =
        Value.map [(Key.str "r1", Value.int 2)] ∧
      (Key.str "r1", Value.int 1) ∉ [(Key.str "r1", Value.int 2)] := by
  refine ⟨rfl, rfl, rfl, ?_⟩
  simp

/-- C13 (witness). A mapping with one integer key and one string key, and a mapping whose two
string keys render differently. -/
theorem deepCopy_map_witness :
    (deepCopyWithTemplate (Value.map [(Key.int 3, Value.null), (Key.str "$receiver",
        Value.str "x")]) sampleReceiverTemplate sampleData).1 =
      Value.map [(Key.str "r1", Value.str "x")] ∧
    (deepCopyWithTemplate (Value.map [(Key.str "a", Value.str "$receiver"),
        (Key.bool true, Value.int 0), (Key.str "$receiver", Value.int 1)])
        sampleReceiverTemplate sampleData).1 =
      Value.map [(Key.str "a", Value.str "r1"), (Key.str "r1", Value.int 1)] :=
  ⟨((deepCopy_map [] sampleReceiverTemplate sampleData).2.2 (Key.int 3) Value.null "$receiver"
      (Value.str "x") (fun x h => by cases h)).1,
    (deepCopy_map [(Key.str "a", Value.str "$receiver"), (Key.bool true, Value.int 0),
      (Key.str "$receiver", Value.int 1)] sampleReceiverTemplate sampleData).2.1 (by decide)⟩

/-- C14. The copy of a sequence is a sequence of the same length whose element at each index is
the copy of the element of the input at that index; a string leaf becomes its rendering, and
`nil`, booleans and integers are returned unchanged. -/
theorem deepCopy_seq (xs : List Value) (t : Template) (d : Data) :
    (∃ ys, (deepCopyWithTemplate (Value.seq xs) t d).1 = Value.seq ys ∧
      ys = xs.map (fun x => (deepCopyWithTemplate x t d).1) ∧
      ys.length = xs.length ∧
      ∀ i : Nat, ys[i]? = xs[i]?.map (fun x => (deepCopyWithTemplate x t d).1)) ∧
    (∀ s, (deepCopyWithTemplate (Value.str s) t d).1 = Value.str (t.render s d).1) ∧
    (deepCopyWithTemplate Value.null t d).1 = Value.null ∧
    (∀ b, (deepCopyWithTemplate (Value.bool b) t d).1 = Value.bool b) ∧
    (∀ i, (deepCopyWithTemplate (Value.int i) t d).1 = Value.int i) := by
  refine ⟨⟨xs.map (fun x => (deepCopyWithTemplate x t d).1), ?_, rfl, List.length_map _ _,
    fun i => List.getElem?_map _ _ _⟩, ?_, ?_, ?_, ?_⟩
  · simp only [deepCopyWithTemplate, deepCopySeq_value]
  · intro s
    simp only [deepCopyWithTemplate, Template.Execute]
  · simp only [deepCopyWithTemplate]
  · intro b
    simp only [deepCopyWithTemplate]
  · intro i
    simp only [deepCopyWithTemplate]

/-- C15. `deepCopyWithTemplate` returns on every value tree. The template engine it returns
renders as before and its error state is the error that was there or else the first error among
the renderings of all the texts of the walk, so an error once recorded is kept; the value
returned is the one returned from an engine without recorded error, so a failure does not stop
the walk. On the sample engine the sequence `BAD`, `x`, `1` is copied whole although the first
rendering fails. -/
theorem deepCopy_total (v : Value) (t : Template) (d : Data) :
    (∃ out t2, deepCopyWithTemplate v t d = (out, t2) ∧
      t2.render = t.render ∧
      t2.err = recordErrors t.render d t.err (walkTexts v) ∧
      (∀ e, t.err = some e → t2.err = some e) ∧
      out = (deepCopyWithTemplate v ⟨t.render, none⟩ d).1) ∧
    deepCopyWithTemplate (Value.seq [Value.str "BAD", Value.str "x", Value.int 1])
        sampleTemplate sampleData =
      (Value.seq [Value.str "", Value.str "x", Value.int 1],
        ⟨sampleTemplate.render, some "bad template"⟩) := by
  refine ⟨⟨(deepCopyWithTemplate v t d).1, (deepCopyWithTemplate v t d).2, rfl, ?_, ?_, ?_, ?_⟩,
    rfl⟩
  · exact deepCopy_render v t d
  · rw [deepCopy_state.1]
  · intro e he
    rw [deepCopy_state.1]
    show recordErrors t.render d t.err (walkTexts v) = some e
    rw [he, recordErrors_some]
  · exact (deepCopy_value.1 v ⟨t.render, none⟩ d t rfl)

/-! ## The labels of the search and of the created issue -/

theorem toIssueLabel_foldl (ps : List (String × String)) (acc : List String) :
    ps.foldl (fun l p => l ++ [p.2]) acc = acc ++ ps.map Prod.snd := by
  induction ps generalizing acc with
  | nil => simp
  | cons p rest ih => simp [ih]

theorem toIssueLabel_eq (groupLabels : KV) :
    toIssueLabel groupLabels = (SortedPairs groupLabels).map Prod.snd := by
  unfold toIssueLabel
  rw [toIssueLabel_foldl]
  rfl

theorem sortedPairs_length (groupLabels : KV) :
    (SortedPairs groupLabels).length = groupLabels.length :=
  List.length_insertionSort _ _

/-- C16. When label attachment is on, the label list computed by `Notify` is `ALERT` followed
by the values of the sorted pairs of the group labels, in that order, so it has one element more
than there are group labels; `toIssueLabel` alone returns those values, as many as there are
group labels, and they are the values of the group labels up to order. -/
theorem notify_issueLabel (r : Receiver) (data : Data) (hl : r.conf.AddLabels = true) :
    (prepare r data).issueLabel = "ALERT" :: (SortedPairs data.GroupLabels).map Prod.snd ∧
      (prepare r data).issueLabel.length = data.GroupLabels.length + 1 ∧
      toIssueLabel data.GroupLabels = (SortedPairs data.GroupLabels).map Prod.snd ∧
      (toIssueLabel data.GroupLabels).length = data.GroupLabels.length ∧
      (toIssueLabel data.GroupLabels).Perm (data.GroupLabels.map Prod.snd) := by
  have hi := prepare_issueLabel r data hl
  have ht := toIssueLabel_eq data.GroupLabels
  refine ⟨by rw [hi, ht], ?_, ht, ?_, ?_⟩
  · rw [hi, ht, List.length_cons, List.length_map, sortedPairs_length]
  · rw [ht, List.length_map, sortedPairs_length]
  · rw [ht]
    exact (List.perm_insertionSort _ _).map _

/-- C16 (witness). The label list of the sample alert group. -/
theorem notify_issueLabel_witness :
    (prepare (sampleReceiver "s" "d" []) sampleData).issueLabel = ["ALERT", "Disk", "page"] ∧
      toIssueLabel sampleData.GroupLabels = ["Disk", "page"] :=
  ⟨(notify_issueLabel (sampleReceiver "s" "d" []) sampleData rfl).1.trans (by decide),
    by decide⟩

theorem groupLabels_foldl (kv : KV) (acc : List String) :
    kv.foldl (fun ls p => ls ++ [p.1 ++ "=" ++ quote p.2]) acc =
      acc ++ kv.map (fun p => p.1 ++ "=" ++ quote p.2) := by
  induction kv generalizing acc with
  | nil => simp
  | cons p rest ih => simp [ih]

theorem newIssue_labels (r : Receiver) (data : Data) (p : Prepared) :
    (newIssue r data p).1.Fields.Labels =
      p.issueLabel ++ (if r.conf.AddGroupLabels = true then
        data.GroupLabels.map (fun kv => kv.1 ++ "=" ++ quote kv.2) else []) := by
  cases h : r.conf.AddGroupLabels with
  | true => simp only [newIssue, h, if_true, groupLabels_foldl]
  | false => simp [newIssue, h]

theorem notify_created_issue (r : Receiver) (data : Data) (now : Int) (o : Outcome)
    (issue : Issue) (hn : Notify r data now = some o) (hc : Call.create issue ∈ o.calls) :
    issue = (newIssue r data (prepare r data)).1 := by
  obtain ⟨o2, ho2, hshape⟩ := notify_calls r data now
  rw [hn] at ho2
  cases ho2
  rcases hshape with h | ⟨q, _, h | ⟨k, h⟩ | ⟨k, id, h⟩ | h⟩ <;> rw [h] at hc <;>
    simp at hc
  exact hc

/-- C17 (as amended). In every run of `Notify` that calls `create`: the base label list is
`ALERT` followed by the group-label values when label attachment is on and empty otherwise; with
group-label augmentation on, the labels of the created issue are the base list followed by one
label per group-label entry, the name, `=` and the value as the `%q` verb writes it, which is
the value itself between double quotes when every character of the value is printable and
neither a double quote nor a backslash; with augmentation off they are the base list. -/
theorem notify_create_labels (r : Receiver) (data : Data) (now : Int) (o : Outcome)
    (issue : Issue) (hn : Notify r data now = some o) (hc : Call.create issue ∈ o.calls) :
    (prepare r data).issueLabel =
        (if r.conf.AddLabels = true then "ALERT" :: toIssueLabel data.GroupLabels else []) ∧
      (r.conf.AddGroupLabels = true →
        issue.Fields.Labels = (prepare r data).issueLabel ++
          data.GroupLabels.map (fun kv => kv.1 ++ "=" ++ quote kv.2) ∧
        (data.GroupLabels.map (fun kv => kv.1 ++ "=" ++ quote kv.2)).length =
          data.GroupLabels.length ∧
        ∀ kv ∈ data.GroupLabels, (∀ c ∈ kv.2.data, plainChar c = true) →
          kv.1 ++ "=" ++ quote kv.2 = kv.1 ++ "=" ++ ("\"" ++ kv.2 ++ "\"")) ∧
      (r.conf.AddGroupLabels = false → issue.Fields.Labels = (prepare r data).issueLabel) := by
  have hi := notify_created_issue r data now o issue hn hc
  refine ⟨?_, ?_, ?_⟩
  · by_cases h : r.conf.AddLabels = true <;> simp [prepare, h]
  · intro hg
    rw [hi, newIssue_labels, if_pos hg]
    refine ⟨rfl, List.length_map _ _, ?_⟩
    intro kv _ hplain
    rw [quote_plainChars kv.2 hplain]
  · intro hg
    rw [hi, newIssue_labels, hg]
    simp

/-- C17 (counterexample). The group label `path` has the value `C:\`: the run creates an issue
whose label for it doubles the backslash, and the label with the value itself between double
quotes is not among the labels of the issue. -/
theorem notify_label_backslash_value :
    (Notify sampleGroupReceiver samplePathData 0).map
        (fun o => o.calls.map Call.isCreate) = some [false, true] ∧
      (newIssue sampleGroupReceiver samplePathData
        (prepare sampleGroupReceiver samplePathData)).1.Fields.Labels =
        ["ALERT", "C:\\", "path=\"C:\\\\\""] ∧
      "path" ++ "=" ++ ("\"" ++ "C:\\" ++ "\"") ∉ ["ALERT", "C:\\", "path=\"C:\\\\\""] := by
  refine ⟨?_, ?_, ?_⟩ <;> decide

/-- C17 (witness). The labels of the issue created for the sample alert group, with and
without augmentation, and the label of a plain value. -/
theorem notify_create_labels_witness :
    (newIssue sampleGroupReceiver sampleData
        (prepare sampleGroupReceiver sampleData)).1.Fields.Labels =
      ["ALERT", "Disk", "page", "severity=\"page\"", "alertname=\"Disk\""] ∧
    (newIssue (sampleReceiver "s" "d" []) sampleData
        (prepare (sampleReceiver "s" "d" []) sampleData)).1.Fields.Labels =
      ["ALERT", "Disk", "page"] ∧
    "severity" ++ "=" ++ quote "page" = "severity" ++ "=" ++ ("\"" ++ "page" ++ "\"") :=
  ⟨((notify_create_labels sampleGroupReceiver sampleData 0
      ⟨false, none, [Call.search
          "project=P and labels=\"ALERT\" and labels=\"Disk\" and labels=\"page\" order by key DESC"
          searchOptions,
        Call.create (newIssue sampleGroupReceiver sampleData
          (prepare sampleGroupReceiver sampleData)).1]⟩
      (newIssue sampleGroupReceiver sampleData (prepare sampleGroupReceiver sampleData)).1
      rfl (List.mem_cons_of_mem _ (List.mem_singleton.mpr rfl))).2.1 rfl).1.trans (by decide),
    ((notify_create_labels (sampleReceiver "s" "d" []) sampleData 0
      ⟨false, none, [Call.search
          "project=P and labels=\"ALERT\" and labels=\"Disk\" and labels=\"page\" order by key DESC"
          searchOptions,
        Call.create (newIssue (sampleReceiver "s" "d" []) sampleData
          (prepare (sampleReceiver "s" "d" []) sampleData)).1]⟩
      (newIssue (sampleReceiver "s" "d" []) sampleData
        (prepare (sampleReceiver "s" "d" []) sampleData)).1
      rfl (List.mem_cons_of_mem _ (List.mem_singleton.mpr rfl))).2.2 rfl).trans (by decide),
    ((notify_create_labels sampleGroupReceiver sampleData 0
      ⟨false, none, [Call.search
          "project=P and labels=\"ALERT\" and labels=\"Disk\" and labels=\"page\" order by key DESC"
          searchOptions,
        Call.create (newIssue sampleGroupReceiver sampleData
          (prepare sampleGroupReceiver sampleData)).1]⟩
      (newIssue sampleGroupReceiver sampleData (prepare sampleGroupReceiver sampleData)).1
      rfl (List.mem_cons_of_mem _ (List.mem_singleton.mpr rfl))).2.1 rfl).2.2
      ("severity", "page") (by decide) (by decide)⟩

/-- C15 (witness). A walk that starts with an error already recorded keeps that error and copies
the whole sequence. -/
theorem deepCopy_total_witness :
    ∃ out t2,
      deepCopyWithTemplate (Value.seq [Value.str "BAD", Value.str "x"])
        ⟨sampleTemplate.render, some "earlier"⟩ sampleData = (out, t2) ∧
      t2.err = some "earlier" ∧
      out = Value.seq [Value.str "", Value.str "x"] :=
  match (deepCopy_total (Value.seq [Value.str "BAD", Value.str "x"])
      ⟨sampleTemplate.render, some "earlier"⟩ sampleData).1 with
  | ⟨out, t2, h, _, _, hkeep, hout⟩ => ⟨out, t2, h, hkeep "earlier" rfl, hout.trans rfl⟩

/-- The comment of `toIssueLabel` speaks of an ALERT metric name with all spaces removed; the
function returns the label values as they are, spaces included. -/
theorem toIssueLabel_keeps_spaces :
    toIssueLabel [("alertname", "Disk Full")] = ["Disk Full"] ∧
      (prepare (sampleReceiver "s" "d" []) ⟨"r1", [("alertname", "Disk Full")]⟩).issueLabel =
        ["ALERT", "Disk Full"] := by
  constructor <;> decide

end Jiralert
